import Mathlib

/-!
# IDA Idle (`src/idaidle.cc`): idle watchdog

A shallow embedding of the plugin: the process-wide globals become an explicit
`State`, the calls into the IDA SDK become `Event`s appended to a trace, and
what the SDK answers (database path, snapshot result, plugin options, hook
registration) is read from a `Host` record.

Time points of `std::chrono::steady_clock` are integers counting clock periods
(nanoseconds) since the clock epoch; `std::chrono::seconds` values are integers
counting seconds.  `duration_cast` truncates toward zero (`Int.tdiv`).
-/

namespace security

/-! ## Data model -/

/-- Calls into the IDA SDK that are visible to the user or the host. -/
inductive Event where
  | msg (text : String)
  | warning (text : String)
  | info (text : String)
  | take_database_snapshot (desc : String)
  | set_database_flag (flag : Nat)
  | execute_ui_requests_qexit (code : Int)
  | register_addon (id : String)
  | register_timer (interval_ms : Int)
  | hook_to_notification_point
  | unregister_timer (handle : Nat)
  | unhook_from_notification_point
  deriving DecidableEq, Repr

/-- Answers of the IDA SDK to the calls the plugin makes.
`take_database_snapshot` is `Except.ok filename` when the SDK call returns
true and `Except.error text` when it returns false. -/
structure Host where
  get_plugin_options : String → Option String
  idb_path : String
  take_database_snapshot : Except String String
  register_timer : Nat
  hook_to_notification_point : Bool

/-- The globals `g_timer_handle`, `g_ignore_activity`, `g_last_activity`,
`g_timer_idle_warning`, `g_timer_idle_timeout` (lines 40-44). -/
structure State where
  g_timer_handle : Nat
  g_ignore_activity : Bool
  g_last_activity : Int
  g_timer_idle_warning : Int
  g_timer_idle_timeout : Int
  deriving DecidableEq, Repr

/-- What a callback hands back: the globals afterwards, the returned value and
the SDK calls it made, in order. -/
structure Outcome where
  state : State
  ret : Int
  trace : List Event
  deriving DecidableEq, Repr

/-- Periods of `steady_clock::duration` per second (nanosecond resolution). -/
def kClockPeriodsPerSecond : Int := 1000000000

/-- The constant `kTimerInterval` (line 38), in seconds. -/
def kTimerInterval : Int := 1

/-- The value `std::chrono::milliseconds(kTimerInterval).count()`. -/
def kTimerIntervalMs : Int := kTimerInterval * 1000

/-- The SDK constant `DBFL_TEMP` of `ida.hpp`. -/
def DBFL_TEMP : Nat := 8

/-- The SDK constant `PLUGIN_SKIP` of `loader.hpp`. -/
def PLUGIN_SKIP : Int := 0

/-- The SDK constant `PLUGIN_KEEP` of `loader.hpp`. -/
def PLUGIN_KEEP : Int := 2

/-- The globals as statically initialised (lines 40-44): null timer handle,
activity not ignored, last activity at the clock epoch, 6h and 12h. -/
def initialState : State :=
  { g_timer_handle := 0
    g_ignore_activity := false
    g_last_activity := 0
    g_timer_idle_warning := 6 * 3600
    g_timer_idle_timeout := 12 * 3600 }

/-! ## Helpers -/

/-- Function `GetArgument` (lines 46-51): the plugin option `IdaIdle<name>`, or the
empty string when the SDK returns a null pointer. -/
def GetArgument (h : Host) (name : String) : String :=
  match h.get_plugin_options ("IdaIdle" ++ name) with
  | some option => option
  | none => ""

/-- Function `HumanReadableTime` (lines 53-74), on a count of milliseconds. -/
def HumanReadableTime (msec : Int) : String :=
  let hours := Int.tdiv msec 3600000
  let msec1 := msec - hours * 3600000
  let minutes := Int.tdiv msec1 60000
  let msec2 := msec1 - minutes * 60000
  let seconds := Int.tdiv msec2 1000
  let result0 := ""
  let need_space0 := false
  let result1 := if hours ≠ 0 then result0 ++ (toString hours ++ "h") else result0
  let need_space1 := if hours ≠ 0 then true else need_space0
  let result2 :=
    if minutes ≠ 0 then
      result1 ++ ((if need_space1 then " " else "") ++ toString minutes ++ "m")
    else result1
  let need_space2 := if minutes ≠ 0 then true else need_space1
  let result3 :=
    if seconds ≠ 0 then
      result2 ++ ((if need_space2 then " " else "") ++ toString seconds ++ "s")
    else result2
  result3

/-- Function `WarnIdle` (lines 86-94): one `msg` call. -/
def WarnIdle (s : State) : List Event :=
  [Event.msg
    ("IDA Idle: ATTENTION! Your session has been idle for more than "
      ++ HumanReadableTime (s.g_timer_idle_warning * 1000) ++ ".\n"
      ++ "                     If you do not save your work, this plugin will "
      ++ "create a database\n"
      ++ "                     snapshot and close IDA without saving.\n"
      ++ "                     This will happen in "
      ++ HumanReadableTime ((s.g_timer_idle_timeout - s.g_timer_idle_warning) * 1000)
      ++ ".\n")]

/-- Function `HelpIdle` (lines 76-84): one `info` call. -/
def HelpIdle (s : State) : List Event :=
  [Event.info
    ("This plugin displays a notification if this instance of IDA is idling "
      ++ "for more than " ++ HumanReadableTime (s.g_timer_idle_warning * 1000) ++ ".\n"
      ++ "After " ++ HumanReadableTime (s.g_timer_idle_timeout * 1000)
      ++ ", it will create a database snapshot and "
      ++ "quit without saving.")]

/-! ## The terminal action and the two callbacks -/

/-- Function `CreateSnapshotAndQuit` (lines 96-127).  The returned value is unused
(the function is `void`) and set to 0. -/
def CreateSnapshotAndQuit (h : Host) (s : State) : Outcome :=
  if h.idb_path.length > 0 then
    match h.take_database_snapshot with
    | Except.error error =>
      { state := s
        ret := 0
        trace :=
          [Event.msg "IDA Idle: Saving snapshot...\n",
           Event.take_database_snapshot "IDA Idle auto snapshot",
           Event.warning ("IDA Idle: Could not take a database snapshot: " ++ error)] }
    | Except.ok filename =>
      { state := { s with g_ignore_activity := true }
        ret := 0
        trace :=
          [Event.msg "IDA Idle: Saving snapshot...\n",
           Event.take_database_snapshot "IDA Idle auto snapshot",
           Event.msg ("IDA Idle: Saved snapshot to: " ++ filename ++ "\n"),
           Event.set_database_flag DBFL_TEMP,
           Event.msg "IDA Idle: Closing IDA...\n",
           Event.execute_ui_requests_qexit 0] }
  else
    { state := { s with g_ignore_activity := true }
      ret := 0
      trace :=
        [Event.msg "IDA Idle: Closing IDA...\n",
         Event.execute_ui_requests_qexit 0] }

/-- The value `diff` of `OnTimer` (lines 130-131): the time since the last
activity, cast to whole seconds. -/
def idleSeconds (s : State) (now : Int) : Int :=
  Int.tdiv (now - s.g_last_activity) kClockPeriodsPerSecond

/-- Function `OnTimer` (lines 129-143), run when `steady_clock::now()` is `now`. -/
def OnTimer (h : Host) (s : State) (now : Int) : Outcome :=
  let diff := idleSeconds s now
  let s1 := { s with g_ignore_activity := true }
  if diff > s1.g_timer_idle_timeout then
    let r := CreateSnapshotAndQuit h s1
    { state := r.state, ret := -1, trace := r.trace }
  else
    let trace :=
      if diff > s1.g_timer_idle_warning ∧
          diff ≤ s1.g_timer_idle_warning + kTimerInterval then
        WarnIdle s1
      else []
    { state := { s1 with g_ignore_activity := false }
      ret := kTimerIntervalMs
      trace := trace }

/-- Function `OnUiNotification` (lines 145-153), run when `steady_clock::now()` is
`now`. -/
def OnUiNotification (s : State) (now : Int) : Outcome :=
  let s1 := if ¬ s.g_ignore_activity then { s with g_last_activity := now } else s
  { state := s1, ret := 0, trace := [] }

/-! ## Start-up -/

/-- Conversion of a 64-bit count to `int` (the assignments of lines 159 and
164): the value modulo 2^32, in the signed range. -/
def toInt32 (x : Int) : Int := (x + 2147483648) % 4294967296 - 2147483648

/-- The C library test `isspace` in the C locale. -/
def isCSpace (c : Char) : Bool :=
  c = ' ' || c = '\t' || c = '\n' || c = '\r' || c.toNat = 11 || c.toNat = 12

/-- The decimal value of the leading digits of `cs`, continuing from `acc`. -/
def atoiDigits : List Char → Int → Int
  | [], acc => acc
  | c :: cs, acc =>
    if c.isDigit then atoiDigits cs (acc * 10 + ((c.toNat : Int) - 48)) else acc

/-- The sign and digits part of `atoi`, after the leading white space. -/
def atoiSigned : List Char → Int
  | '-' :: cs => - atoiDigits cs 0
  | '+' :: cs => atoiDigits cs 0
  | cs => atoiDigits cs 0

/-- The saturation of `strtol` at the range of a 64-bit `long`. -/
def clampLong (x : Int) : Int :=
  if x > 9223372036854775807 then 9223372036854775807
  else if x < -9223372036854775808 then -9223372036854775808
  else x

/-- The C library function `atoi`: leading white space is skipped, then an
optional sign and the longest run of decimal digits are read; text that does
not start with a number gives 0.  As in the GNU C library the value is that of
`strtol`, saturated at the range of `long`, converted to `int` by `toInt32`
(the C standard leaves input outside the range of `int` undefined). -/
def atoi (str : String) : Int :=
  toInt32 (clampLong (atoiSigned (str.toList.dropWhile isCSpace)))

/-- Function `PluginInit` (lines 155-201). -/
def PluginInit (h : Host) (s : State) : Outcome :=
  let default_warning_seconds := s.g_timer_idle_warning
  let warning_arg := atoi (GetArgument h "WarningSeconds")
  let warning_seconds :=
    if warning_arg = 0 then toInt32 default_warning_seconds else warning_arg
  let default_timeout_seconds := s.g_timer_idle_timeout
  let timeout_arg := atoi (GetArgument h "TimeoutSeconds")
  let timeout_seconds :=
    if timeout_arg = 0 then toInt32 default_timeout_seconds else timeout_arg
  let configured : State × List Event :=
    if warning_seconds < timeout_seconds then
      let a : State × List Event :=
        if warning_seconds ≠ default_warning_seconds then
          ({ s with g_timer_idle_warning := warning_seconds },
           [Event.msg ("IDA Idle: Warning interval set to "
              ++ HumanReadableTime (warning_seconds * 1000) ++ " via plugin option\n")])
        else (s, [])
      let b : State × List Event :=
        if timeout_seconds ≠ default_timeout_seconds then
          ({ a.1 with g_timer_idle_timeout := timeout_seconds },
           [Event.msg ("IDA Idle: Timeout interval set to "
              ++ HumanReadableTime (timeout_seconds * 1000) ++ " via plugin option\n")])
        else (a.1, [])
      (b.1, a.2 ++ b.2)
    else
      (s, [Event.msg
        "IDA Idle: Timeout smaller or equal to warning interval, both ignored\n"])
  let s1 := { configured.1 with g_timer_handle := h.register_timer }
  let trace1 :=
    configured.2 ++
      [Event.register_addon "com.google.idaidle",
       Event.register_timer kTimerIntervalMs,
       Event.hook_to_notification_point]
  if ¬ h.hook_to_notification_point then
    { state := s1
      ret := PLUGIN_SKIP
      trace := trace1 ++
        [Event.msg "IDA Idle: Failed to register plugin notifications, skipping plugin"] }
  else
    { state := s1, ret := PLUGIN_KEEP, trace := trace1 }

/-- Function `PluginRun` (lines 203-206): shows the help text and returns true (1). -/
def PluginRun (s : State) : Outcome :=
  { state := s, ret := 1, trace := HelpIdle s }

/-- Function `PluginTerminate` (lines 208-212). -/
def PluginTerminate (s : State) : Outcome :=
  { state := s
    ret := 0
    trace := [Event.unregister_timer s.g_timer_handle,
              Event.unhook_from_notification_point] }

/-! ## The host timer

The SDK timer registered by `register_timer` calls the callback after the
interval; a result of -1 unregisters the timer, any other result is the next
interval in milliseconds. -/

/-- One entry of a timer run: when the callback ran, what it returned and the
SDK calls it made. -/
structure Tick where
  time : Int
  ret : Int
  trace : List Event
  deriving DecidableEq, Repr

/-- The timer driving `OnTimer` with no activity in between: the callback runs
at `now`; unless it returns -1 the next call is the returned number of
milliseconds later.  At most `fuel` calls are made. -/
def runTimer (h : Host) : Nat → State → Int → List Tick
  | 0, _, _ => []
  | fuel + 1, s, now =>
    let r := OnTimer h s now
    { time := now, ret := r.ret, trace := r.trace } ::
      (if r.ret = -1 then []
       else runTimer h fuel r.state (now + r.ret * (kClockPeriodsPerSecond / 1000)))

/-! ## Example hosts and states -/

/-- A host with no database open and no plugin options. -/
def hostNoDatabase : Host :=
  { get_plugin_options := fun _ => none
    idb_path := ""
    take_database_snapshot := Except.error "no database"
    register_timer := 1
    hook_to_notification_point := true }

/-- A host with a database open whose snapshot fails. -/
def hostSnapshotFails : Host :=
  { get_plugin_options := fun _ => none
    idb_path := "work.idb"
    take_database_snapshot := Except.error "disk full"
    register_timer := 1
    hook_to_notification_point := true }

/-- A host with a database open whose snapshot succeeds. -/
def hostSnapshotOk : Host :=
  { get_plugin_options := fun _ => none
    idb_path := "work.idb"
    take_database_snapshot := Except.ok "work_snapshot.idb"
    register_timer := 1
    hook_to_notification_point := true }

/-- The initial globals with thresholds of 3 and 5 seconds. -/
def state35 : State :=
  { initialState with g_timer_idle_warning := 3, g_timer_idle_timeout := 5 }

/-- A host whose only plugin option is `IdaIdleWarningSeconds`, with the given
text. -/
def hostWarningOption (text : String) : Host :=
  { get_plugin_options := fun name =>
      if name = "IdaIdleWarningSeconds" then some text else none
    idb_path := ""
    take_database_snapshot := Except.error "no database"
    register_timer := 1
    hook_to_notification_point := true }

/-- A host on which hooking the UI notifications fails. -/
def hostHookFails : Host :=
  { get_plugin_options := fun _ => none
    idb_path := ""
    take_database_snapshot := Except.error "no database"
    register_timer := 1
    hook_to_notification_point := false }

/-! ## Entries of an idle run -/

/-- The entry of a run for a tick `d` whole seconds after the last activity at
`a` that does not reach the timeout, with warning threshold `W`. -/
def idleTick (s : State) (a : Int) (W d : Nat) : Tick :=
  { time := a + (d : Int) * kClockPeriodsPerSecond
    ret := 1000
    trace := if d = W + 1 then WarnIdle s else [] }

/-- The entry of a run for the tick that runs the terminal action, `d` whole
seconds after the last activity at `a`. -/
def terminalTick (h : Host) (s : State) (a : Int) (d : Nat) : Tick :=
  { time := a + (d : Int) * kClockPeriodsPerSecond
    ret := -1
    trace := (CreateSnapshotAndQuit h s).trace }

/-! ## Sequences of callbacks after start-up -/

/-- One thing that can happen after start-up: a tick of the timer at an
instant, a UI notification at an instant, or the terminal action. -/
inductive Action where
  | tick (now : Int)
  | activity (now : Int)
  | terminal
  deriving DecidableEq, Repr

/-- The globals after one `Action`. -/
def applyAction (h : Host) (s : State) : Action → State
  | Action.tick now => (OnTimer h s now).state
  | Action.activity now => (OnUiNotification s now).state
  | Action.terminal => (CreateSnapshotAndQuit h s).state

/-- The globals after a sequence of actions, in order. -/
def runActions (h : Host) (s : State) (acts : List Action) : State :=
  acts.foldl (applyAction h) s

/-! ## The text of a duration, as described -/

/-- The three components of a duration of `ms` milliseconds: hours, minutes
below the hour and seconds below the minute, by integer division. -/
def durationComponents (ms : Nat) : Nat × Nat × Nat :=
  (ms / 3600000, (ms % 3600000) / 60000, (ms % 60000) / 1000)

/-- The described text of a duration: the non-zero components among hours,
minutes and seconds, each as its decimal string followed by its unit letter,
in that order, joined by single spaces.  This follows the description, not
the code; it is compared with `HumanReadableTime` below. -/
def describedDurationText (ms : Nat) : String :=
  " ".intercalate
    ((if (durationComponents ms).1 ≠ 0
        then [toString (durationComponents ms).1 ++ "h"] else []) ++
     (if (durationComponents ms).2.1 ≠ 0
        then [toString (durationComponents ms).2.1 ++ "m"] else []) ++
     (if (durationComponents ms).2.2 ≠ 0
        then [toString (durationComponents ms).2.2 ++ "s"] else []))

/-! ## Arithmetic of the cast to whole seconds -/

theorem tdiv_periods_of_nonneg (x : Int) (hx : 0 ≤ x) :
    Int.tdiv x 1000000000 = x / 1000000000 :=
  Int.tdiv_eq_ediv hx (by decide)

theorem tdiv_periods_of_neg (x : Int) (hx : x < 0) :
    Int.tdiv x 1000000000 = -((-x) / 1000000000) := by
  have h1 : Int.tdiv (-(-x)) 1000000000 = -(Int.tdiv (-x) 1000000000) :=
    Int.neg_tdiv (-x) 1000000000
  rw [neg_neg] at h1
  rw [h1, Int.tdiv_eq_ediv (by omega) (by decide)]

theorem idleSeconds_whole (s : State) (d : Int) :
    idleSeconds s (s.g_last_activity + d * kClockPeriodsPerSecond) = d := by
  unfold idleSeconds kClockPeriodsPerSecond
  rw [add_sub_cancel_left]
  exact Int.mul_tdiv_cancel d (by decide)

theorem idleSeconds_gt_iff (s : State) (now T : Int) (hT : 0 ≤ T) :
    T < idleSeconds s now ↔
      (T + 1) * kClockPeriodsPerSecond ≤ now - s.g_last_activity := by
  unfold idleSeconds kClockPeriodsPerSecond
  rcases le_or_lt 0 (now - s.g_last_activity) with hx | hx
  · rw [tdiv_periods_of_nonneg _ hx]; omega
  · rw [tdiv_periods_of_neg _ hx]; omega

theorem idleSeconds_le_of_lt (s : State) (now T : Int)
    (hlt : now - s.g_last_activity < T * kClockPeriodsPerSecond) :
    idleSeconds s now ≤ T := by
  unfold idleSeconds
  unfold kClockPeriodsPerSecond at hlt ⊢
  rcases le_or_lt 0 (now - s.g_last_activity) with hx | hx
  · rw [tdiv_periods_of_nonneg _ hx]; omega
  · rw [tdiv_periods_of_neg _ hx]; omega

theorem idleSeconds_eq_succ_iff (s : State) (now W : Int) (hW : 0 ≤ W) :
    idleSeconds s now = W + 1 ↔
      (W + 1) * kClockPeriodsPerSecond ≤ now - s.g_last_activity ∧
        now - s.g_last_activity < (W + 2) * kClockPeriodsPerSecond := by
  unfold idleSeconds kClockPeriodsPerSecond
  rcases le_or_lt 0 (now - s.g_last_activity) with hx | hx
  · rw [tdiv_periods_of_nonneg _ hx]; omega
  · rw [tdiv_periods_of_neg _ hx]; omega

/-! ## Shape of a tick -/

theorem WarnIdle_of_thresholds (s s1 : State)
    (hw : s1.g_timer_idle_warning = s.g_timer_idle_warning)
    (ht : s1.g_timer_idle_timeout = s.g_timer_idle_timeout) :
    WarnIdle s1 = WarnIdle s := by
  unfold WarnIdle
  rw [hw, ht]

theorem CreateSnapshotAndQuit_trace_length (h : Host) (s : State) :
    2 ≤ (CreateSnapshotAndQuit h s).trace.length := by
  unfold CreateSnapshotAndQuit
  split
  · split <;> simp
  · simp

theorem CreateSnapshotAndQuit_trace_state (h : Host) (s s1 : State) :
    (CreateSnapshotAndQuit h s1).trace = (CreateSnapshotAndQuit h s).trace := by
  unfold CreateSnapshotAndQuit
  split
  · split <;> rfl
  · rfl

theorem CreateSnapshotAndQuit_trace_ne_nil (h : Host) (s : State) :
    (CreateSnapshotAndQuit h s).trace ≠ [] := by
  intro hnil
  have := CreateSnapshotAndQuit_trace_length h s
  rw [hnil] at this
  simp at this

theorem CreateSnapshotAndQuit_trace_ne_WarnIdle (h : Host) (s s1 : State) :
    (CreateSnapshotAndQuit h s).trace ≠ WarnIdle s1 := by
  intro heq
  have := CreateSnapshotAndQuit_trace_length h s
  rw [heq] at this
  simp [WarnIdle] at this

theorem OnTimer_of_gt (h : Host) (s : State) (now : Int)
    (hgt : s.g_timer_idle_timeout < idleSeconds s now) :
    OnTimer h s now =
      { state := (CreateSnapshotAndQuit h { s with g_ignore_activity := true }).state
        ret := -1
        trace := (CreateSnapshotAndQuit h { s with g_ignore_activity := true }).trace } := by
  unfold OnTimer
  simp only [gt_iff_lt]
  rw [if_pos hgt]

theorem OnTimer_of_le (h : Host) (s : State) (now : Int)
    (hle : idleSeconds s now ≤ s.g_timer_idle_timeout) :
    OnTimer h s now =
      { state := { s with g_ignore_activity := false }
        ret := 1000
        trace :=
          if idleSeconds s now = s.g_timer_idle_warning + 1 then WarnIdle s else [] } := by
  unfold OnTimer
  simp only [gt_iff_lt]
  rw [if_neg (not_lt.mpr hle)]
  have hband : (s.g_timer_idle_warning < idleSeconds s now ∧
      idleSeconds s now ≤ s.g_timer_idle_warning + kTimerInterval) ↔
      idleSeconds s now = s.g_timer_idle_warning + 1 := by
    unfold kTimerInterval; omega
  have hw : WarnIdle { s with g_ignore_activity := true } = WarnIdle s :=
    WarnIdle_of_thresholds s _ rfl rfl
  simp only [hband, hw]
  rfl

/-! ## Timeout and warning thresholds of a single tick -/

/-- C1 (counterexample): with thresholds 3s < 5s and the last activity at 0, the
tick at exactly 5s (idle duration equal to TimeoutInterval) returns the
reschedule interval 1000 and makes no SDK call: no terminal action, no stop
signal. -/
theorem OnTimer_at_exact_timeout_reschedules :
    state35.g_timer_idle_warning < state35.g_timer_idle_timeout ∧
    state35.g_timer_idle_timeout * kClockPeriodsPerSecond
      ≤ 5000000000 - state35.g_last_activity ∧
    (OnTimer hostNoDatabase state35 5000000000).ret ≠ -1 ∧
    (OnTimer hostNoDatabase state35 5000000000).ret = 1000 ∧
    (OnTimer hostNoDatabase state35 5000000000).trace = [] ∧
    (OnTimer hostNoDatabase state35 5000000000).trace ≠
      (CreateSnapshotAndQuit hostNoDatabase
        { state35 with g_ignore_activity := true }).trace := by
  refine ⟨by decide, by decide, by decide, by decide, by decide, ?_⟩
  have h0 : (OnTimer hostNoDatabase state35 5000000000).trace = [] := by decide
  rw [h0]
  exact fun hc => CreateSnapshotAndQuit_trace_ne_nil _ _ hc.symm

/-- C1 (amended): for every state (in particular with Warning < Timeout) and
every instant, the tick returns the stop signal -1 exactly when the idle
duration cast to whole seconds is strictly greater than TimeoutInterval, and
then it runs the terminal action; for a non-negative timeout that is when
now - LastActivityTimestamp is at least TimeoutInterval + 1s.  At an idle
duration of exactly TimeoutInterval the tick returns 1000 and does not run the
terminal action. -/
theorem OnTimer_terminal_iff_past_timeout (h : Host) (s : State) (now : Int) :
    ((OnTimer h s now).ret = -1 ↔ s.g_timer_idle_timeout < idleSeconds s now) ∧
    (s.g_timer_idle_timeout < idleSeconds s now →
      (OnTimer h s now).trace =
        (CreateSnapshotAndQuit h { s with g_ignore_activity := true }).trace ∧
      (OnTimer h s now).state =
        (CreateSnapshotAndQuit h { s with g_ignore_activity := true }).state) ∧
    (0 ≤ s.g_timer_idle_timeout →
      (s.g_timer_idle_timeout < idleSeconds s now ↔
        (s.g_timer_idle_timeout + 1) * kClockPeriodsPerSecond
          ≤ now - s.g_last_activity)) ∧
    (now - s.g_last_activity = s.g_timer_idle_timeout * kClockPeriodsPerSecond →
      (OnTimer h s now).ret = 1000 ∧
      (OnTimer h s now).trace ≠
        (CreateSnapshotAndQuit h { s with g_ignore_activity := true }).trace) := by
  have hle_case : idleSeconds s now ≤ s.g_timer_idle_timeout →
      (OnTimer h s now).ret = 1000 ∧
      (OnTimer h s now).trace ≠
        (CreateSnapshotAndQuit h { s with g_ignore_activity := true }).trace := by
    intro hle
    rw [OnTimer_of_le h s now hle]
    refine ⟨rfl, ?_⟩
    intro hc
    dsimp only at hc
    split at hc
    · exact CreateSnapshotAndQuit_trace_ne_WarnIdle _ _ _ hc.symm
    · exact CreateSnapshotAndQuit_trace_ne_nil _ _ hc.symm
  refine ⟨?_, ?_, ?_, ?_⟩
  · constructor
    · intro hret
      by_contra hnot
      have := (hle_case (not_lt.mp hnot)).1
      rw [this] at hret
      exact absurd hret (by decide)
    · intro hgt
      rw [OnTimer_of_gt h s now hgt]
  · intro hgt
    rw [OnTimer_of_gt h s now hgt]
    exact ⟨rfl, rfl⟩
  · intro hT
    exact idleSeconds_gt_iff s now _ hT
  · intro hex
    apply hle_case
    have hnow : now = s.g_last_activity +
        s.g_timer_idle_timeout * kClockPeriodsPerSecond := by omega
    rw [hnow, idleSeconds_whole]

/-- C1 (witness): thresholds 3s and 5s, last activity at 0; the tick at 6s
returns -1 with the trace of the terminal action, the tick at 5s returns
1000. -/
theorem OnTimer_terminal_iff_past_timeout_witness :
    (OnTimer hostNoDatabase state35 6000000000).ret = -1 ∧
    (OnTimer hostNoDatabase state35 6000000000).trace =
      (CreateSnapshotAndQuit hostNoDatabase
        { state35 with g_ignore_activity := true }).trace ∧
    (OnTimer hostNoDatabase state35 5000000000).ret = 1000 :=
  ⟨(OnTimer_terminal_iff_past_timeout hostNoDatabase state35 6000000000).1.mpr
      (by decide),
   ((OnTimer_terminal_iff_past_timeout hostNoDatabase state35 6000000000).2.1
      (by decide)).1,
   ((OnTimer_terminal_iff_past_timeout hostNoDatabase state35 5000000000).2.2.2
      (by decide)).1⟩

/-- C2 (counterexample): with thresholds 3s < 5s and the last activity at 0, the
tick at 3s, whose idle duration lies in [WarningInterval, WarningInterval + 1s)
and below the timeout, emits nothing, and the tick at 4s, whose idle duration
lies outside that band and below the timeout, emits the warning. -/
theorem OnTimer_warning_band_shifted :
    state35.g_timer_idle_warning < state35.g_timer_idle_timeout ∧
    state35.g_timer_idle_warning * kClockPeriodsPerSecond
      ≤ 3000000000 - state35.g_last_activity ∧
    3000000000 - state35.g_last_activity
      < (state35.g_timer_idle_warning + kTimerInterval) * kClockPeriodsPerSecond ∧
    3000000000 - state35.g_last_activity
      < state35.g_timer_idle_timeout * kClockPeriodsPerSecond ∧
    (OnTimer hostNoDatabase state35 3000000000).trace = [] ∧
    (OnTimer hostNoDatabase state35 3000000000).trace ≠ WarnIdle state35 ∧
    ¬ (4000000000 - state35.g_last_activity
      < (state35.g_timer_idle_warning + kTimerInterval) * kClockPeriodsPerSecond) ∧
    4000000000 - state35.g_last_activity
      < state35.g_timer_idle_timeout * kClockPeriodsPerSecond ∧
    (OnTimer hostNoDatabase state35 4000000000).trace = WarnIdle state35 := by
  refine ⟨by decide, by decide, by decide, by decide, by decide, ?_,
    by decide, by decide, ?_⟩
  · have h0 : (OnTimer hostNoDatabase state35 3000000000).trace = [] := by decide
    rw [h0]
    simp [WarnIdle]
  · have h4 : idleSeconds state35 4000000000 = state35.g_timer_idle_warning + 1 := by
      decide
    rw [OnTimer_of_le hostNoDatabase state35 4000000000 (by decide)]
    dsimp only
    rw [if_pos h4]

/-- C2 (amended): for every state (in particular with Warning < Timeout) and
every tick whose idle duration is below TimeoutInterval, the tick emits the
warning (WarnIdle) if and only if the idle duration cast to whole seconds is
WarningInterval + 1s, and otherwise emits nothing; for a non-negative
WarningInterval that is the half-open band
[WarningInterval + 1s, WarningInterval + 2s).  The tick returns 1000. -/
theorem OnTimer_warning_iff_band (h : Host) (s : State) (now : Int)
    (hlt : now - s.g_last_activity
      < s.g_timer_idle_timeout * kClockPeriodsPerSecond) :
    ((OnTimer h s now).trace = WarnIdle s ↔
      idleSeconds s now = s.g_timer_idle_warning + kTimerInterval) ∧
    ((OnTimer h s now).trace ≠ WarnIdle s → (OnTimer h s now).trace = []) ∧
    (0 ≤ s.g_timer_idle_warning →
      ((OnTimer h s now).trace = WarnIdle s ↔
        (s.g_timer_idle_warning + 1) * kClockPeriodsPerSecond
            ≤ now - s.g_last_activity ∧
          now - s.g_last_activity
            < (s.g_timer_idle_warning + 2) * kClockPeriodsPerSecond)) ∧
    (OnTimer h s now).ret = 1000 := by
  have hle := idleSeconds_le_of_lt s now _ hlt
  have hiff : (OnTimer h s now).trace = WarnIdle s ↔
      idleSeconds s now = s.g_timer_idle_warning + 1 := by
    rw [OnTimer_of_le h s now hle]
    dsimp only
    constructor
    · intro htr
      by_contra hne
      rw [if_neg hne] at htr
      simp [WarnIdle] at htr
    · intro heq
      rw [if_pos heq]
  refine ⟨hiff, ?_, ?_, ?_⟩
  · intro hne
    rw [OnTimer_of_le h s now hle] at hne ⊢
    dsimp only at hne ⊢
    split
    · rename_i heq
      rw [if_pos heq] at hne
      exact absurd rfl hne
    · rfl
  · intro hW
    rw [hiff]
    exact idleSeconds_eq_succ_iff s now _ hW
  · rw [OnTimer_of_le h s now hle]

/-- C2 (witness): thresholds 3s and 5s, last activity at 0; the tick at 4.5s
is below the timeout and emits the warning. -/
theorem OnTimer_warning_iff_band_witness :
    4500000000 - state35.g_last_activity
      < state35.g_timer_idle_timeout * kClockPeriodsPerSecond ∧
    (OnTimer hostNoDatabase state35 4500000000).trace = WarnIdle state35 :=
  ⟨by decide,
   (OnTimer_warning_iff_band hostNoDatabase state35 4500000000 (by decide)).1.mpr
     (by decide)⟩

/-! ## A run of the timer without activity -/

theorem runTimer_idle_from (h : Host) (s0 : State) (W T : Nat)
    (hW : s0.g_timer_idle_warning = W) (hT : s0.g_timer_idle_timeout = T) :
    ∀ (n k fuel : Nat) (s : State),
      s.g_last_activity = s0.g_last_activity →
      s.g_timer_idle_warning = s0.g_timer_idle_warning →
      s.g_timer_idle_timeout = s0.g_timer_idle_timeout →
      k + n = T → n + 1 ≤ fuel →
      runTimer h fuel s
          (s0.g_last_activity + ((k + 1 : Nat) : Int) * kClockPeriodsPerSecond) =
        (List.range' (k + 1) n).map (idleTick s0 s0.g_last_activity W) ++
          [terminalTick h s0 s0.g_last_activity (T + 1)] := by
  intro n
  induction n with
  | zero =>
    intro k fuel s hl hw ht hk hf
    obtain ⟨f, rfl⟩ : ∃ f, fuel = f + 1 := ⟨fuel - 1, by omega⟩
    have hkT : k = T := by omega
    subst hkT
    have hidle : idleSeconds s
        (s0.g_last_activity + ((k + 1 : Nat) : Int) * kClockPeriodsPerSecond)
          = ((k + 1 : Nat) : Int) := by
      rw [← hl]; exact idleSeconds_whole s _
    have hgt : s.g_timer_idle_timeout < idleSeconds s
        (s0.g_last_activity + ((k + 1 : Nat) : Int) * kClockPeriodsPerSecond) := by
      rw [hidle, ht, hT]; push_cast; omega
    unfold runTimer
    rw [OnTimer_of_gt h s _ hgt]
    simp only [if_true, List.range'_zero, List.map_nil, List.nil_append]
    unfold terminalTick
    rw [CreateSnapshotAndQuit_trace_state h s0 _]
  | succ n ih =>
    intro k fuel s hl hw ht hk hf
    obtain ⟨f, rfl⟩ : ∃ f, fuel = f + 1 := ⟨fuel - 1, by omega⟩
    have hidle : idleSeconds s
        (s0.g_last_activity + ((k + 1 : Nat) : Int) * kClockPeriodsPerSecond)
          = ((k + 1 : Nat) : Int) := by
      rw [← hl]; exact idleSeconds_whole s _
    have hle : idleSeconds s
        (s0.g_last_activity + ((k + 1 : Nat) : Int) * kClockPeriodsPerSecond)
          ≤ s.g_timer_idle_timeout := by
      rw [hidle, ht, hT]; push_cast; omega
    have hnext : s0.g_last_activity + ((k + 1 : Nat) : Int) * kClockPeriodsPerSecond
        + 1000 * (kClockPeriodsPerSecond / 1000)
        = s0.g_last_activity + ((k + 1 + 1 : Nat) : Int) * kClockPeriodsPerSecond := by
      unfold kClockPeriodsPerSecond; push_cast; omega
    have hrec := ih (k + 1) f { s with g_ignore_activity := false } hl hw ht
      (by omega) (by omega)
    have hcond : (idleSeconds s
        (s0.g_last_activity + ((k + 1 : Nat) : Int) * kClockPeriodsPerSecond)
          = s.g_timer_idle_warning + 1) ↔ k + 1 = W + 1 := by
      rw [hidle, hw, hW]; push_cast; omega
    unfold runTimer
    rw [OnTimer_of_le h s _ hle]
    simp only [hcond]
    rw [if_neg (show ¬ ((1000 : Int) = -1) by decide), hnext, hrec,
      List.range'_succ, List.map_cons, List.cons_append]
    congr 1
    unfold idleTick
    rw [WarnIdle_of_thresholds s0 s hw ht]

theorem runTimer_idle (h : Host) (s : State) (W T : Nat)
    (hW : s.g_timer_idle_warning = W) (hT : s.g_timer_idle_timeout = T)
    (fuel : Nat) (hf : T + 1 ≤ fuel) :
    runTimer h fuel s (s.g_last_activity + 1 * kClockPeriodsPerSecond) =
      (List.range' 1 T).map (idleTick s s.g_last_activity W) ++
        [terminalTick h s s.g_last_activity (T + 1)] := by
  have hrun := runTimer_idle_from h s W T hW hT T 0 fuel s rfl rfl rfl (by omega) hf
  simpa using hrun

theorem runTimer_idle_length (h : Host) (s : State) (W T : Nat)
    (hW : s.g_timer_idle_warning = W) (hT : s.g_timer_idle_timeout = T)
    (fuel : Nat) (hf : T + 1 ≤ fuel) :
    (runTimer h fuel s (s.g_last_activity + 1 * kClockPeriodsPerSecond)).length
      = T + 1 := by
  rw [runTimer_idle h s W T hW hT fuel hf]
  simp

theorem runTimer_idle_before (h : Host) (s : State) (W T : Nat)
    (hW : s.g_timer_idle_warning = W) (hT : s.g_timer_idle_timeout = T)
    (fuel : Nat) (hf : T + 1 ≤ fuel) (i : Nat) (hi : i < T) :
    (runTimer h fuel s (s.g_last_activity + 1 * kClockPeriodsPerSecond))[i]? =
      some (idleTick s s.g_last_activity W (i + 1)) := by
  rw [runTimer_idle h s W T hW hT fuel hf,
    List.getElem?_append_left (by simpa using hi), List.getElem?_map,
    List.getElem?_range' 1 1 hi]
  simp [Nat.add_comm]

theorem runTimer_idle_last (h : Host) (s : State) (W T : Nat)
    (hW : s.g_timer_idle_warning = W) (hT : s.g_timer_idle_timeout = T)
    (fuel : Nat) (hf : T + 1 ≤ fuel) :
    (runTimer h fuel s (s.g_last_activity + 1 * kClockPeriodsPerSecond))[T]? =
      some (terminalTick h s s.g_last_activity (T + 1)) := by
  rw [runTimer_idle h s W T hW hT fuel hf,
    List.getElem?_append_right (by simp)]
  simp

theorem runTimer_idle_after (h : Host) (s : State) (W T : Nat)
    (hW : s.g_timer_idle_warning = W) (hT : s.g_timer_idle_timeout = T)
    (fuel : Nat) (hf : T + 1 ≤ fuel) (i : Nat) (hi : T < i) :
    (runTimer h fuel s (s.g_last_activity + 1 * kClockPeriodsPerSecond))[i]? = none := by
  rw [List.getElem?_eq_none_iff, runTimer_idle_length h s W T hW hT fuel hf]
  omega

theorem idleTick_trace_ne_terminal (h : Host) (s s1 : State) (a : Int) (W d : Nat) :
    (idleTick s a W d).trace ≠ (CreateSnapshotAndQuit h s1).trace := by
  unfold idleTick
  dsimp only
  intro hc
  split at hc
  · exact CreateSnapshotAndQuit_trace_ne_WarnIdle _ _ _ hc.symm
  · exact CreateSnapshotAndQuit_trace_ne_nil _ _ hc.symm

/-- C3 (counterexample): with thresholds 3s < 5s and the last activity at 0, the
run ticking at 1s, 2s, ... has six ticks: the tick at t = 5s = TimeoutInterval
returns 1000 and makes no SDK call, and the stop signal comes only from the
tick at t = 6s. -/
theorem runTimer_3_5_stops_at_six :
    (0 : Int) < state35.g_timer_idle_warning ∧
    state35.g_timer_idle_warning < state35.g_timer_idle_timeout ∧
    state35.g_last_activity = 0 ∧
    (runTimer hostNoDatabase 10 state35 1000000000).map (fun t => (t.time, t.ret)) =
      [(1000000000, 1000), (2000000000, 1000), (3000000000, 1000),
       (4000000000, 1000), (5000000000, 1000), (6000000000, -1)] ∧
    (runTimer hostNoDatabase 10 state35 1000000000)[4]? =
      some { time := 5000000000, ret := 1000, trace := [] } := by
  refine ⟨by decide, by decide, by decide, by decide, by decide⟩

theorem runTimer_from_zero_shape (h : Host) (s : State) (W T : Nat)
    (hl : s.g_last_activity = 0)
    (hW : s.g_timer_idle_warning = W) (hT : s.g_timer_idle_timeout = T)
    (fuel : Nat) (hf : T + 1 ≤ fuel) :
    (runTimer h fuel s (1 * kClockPeriodsPerSecond)).length = T + 1 ∧
    (runTimer h fuel s (1 * kClockPeriodsPerSecond))[T]? =
      some { time := ((T : Int) + 1) * kClockPeriodsPerSecond
             ret := -1
             trace := (CreateSnapshotAndQuit h
               { s with g_ignore_activity := true }).trace } ∧
    (∀ (i : Nat) (t : Tick),
      (runTimer h fuel s (1 * kClockPeriodsPerSecond))[i]? = some t →
        t.time = ((i : Int) + 1) * kClockPeriodsPerSecond ∧
        (t.ret = -1 ↔ i = T) ∧
        (t.trace = (CreateSnapshotAndQuit h
          { s with g_ignore_activity := true }).trace ↔ i = T)) := by
  have hstart : (1 : Int) * kClockPeriodsPerSecond =
      s.g_last_activity + 1 * kClockPeriodsPerSecond := by rw [hl, zero_add]
  rw [hstart]
  have hlast := runTimer_idle_last h s W T hW hT fuel hf
  have hterm : terminalTick h s s.g_last_activity (T + 1) =
      { time := ((T : Int) + 1) * kClockPeriodsPerSecond
        ret := -1
        trace := (CreateSnapshotAndQuit h { s with g_ignore_activity := true }).trace } := by
    unfold terminalTick
    rw [CreateSnapshotAndQuit_trace_state h { s with g_ignore_activity := true } s, hl]
    push_cast
    simp
  refine ⟨runTimer_idle_length h s W T hW hT fuel hf, ?_, ?_⟩
  · rw [hlast, hterm]
  · intro i t hit
    rcases Nat.lt_trichotomy i T with hi | hi | hi
    · rw [runTimer_idle_before h s W T hW hT fuel hf i hi] at hit
      have ht : t = idleTick s s.g_last_activity W (i + 1) := (Option.some.inj hit).symm
      subst ht
      refine ⟨?_, ?_, ?_⟩
      · unfold idleTick; rw [hl]; push_cast; simp
      · constructor
        · intro hret
          simp [idleTick] at hret
        · intro heq; omega
      · constructor
        · intro htr
          exact absurd htr (idleTick_trace_ne_terminal h s _ _ W (i + 1))
        · intro heq; omega
    · subst hi
      rw [hlast, hterm] at hit
      have ht := (Option.some.inj hit).symm
      subst ht
      exact ⟨rfl, by simp, by simp⟩
    · rw [runTimer_idle_after h s W T hW hT fuel hf i hi] at hit
      exact absurd hit (by simp)

/-- C3 (amended): for all whole-second thresholds 0 < Warning < Timeout, in
the run that starts with LastActivityTimestamp = 0, receives no activity and
ticks at t = 1s, 2s, 3s, ..., the terminal action is invoked exactly once in
the whole run, at the tick t = TimeoutInterval + 1s; that tick, and no other,
returns the stop signal -1, and it is the last tick of the run (the run has
Timeout + 1 ticks whenever the fuel allows that many). -/
theorem runTimer_terminal_exactly_once (h : Host) (s : State)
    (hl : s.g_last_activity = 0)
    (hW : 0 < s.g_timer_idle_warning)
    (hWT : s.g_timer_idle_warning < s.g_timer_idle_timeout)
    (fuel : Nat) (hf : s.g_timer_idle_timeout + 1 ≤ (fuel : Int)) :
    ((runTimer h fuel s (1 * kClockPeriodsPerSecond)).length : Int)
      = s.g_timer_idle_timeout + 1 ∧
    (runTimer h fuel s (1 * kClockPeriodsPerSecond))[s.g_timer_idle_timeout.toNat]? =
      some { time := (s.g_timer_idle_timeout + 1) * kClockPeriodsPerSecond
             ret := -1
             trace := (CreateSnapshotAndQuit h
               { s with g_ignore_activity := true }).trace } ∧
    (∀ (i : Nat) (t : Tick),
      (runTimer h fuel s (1 * kClockPeriodsPerSecond))[i]? = some t →
        t.time = ((i : Int) + 1) * kClockPeriodsPerSecond ∧
        (t.ret = -1 ↔ (i : Int) = s.g_timer_idle_timeout) ∧
        (t.trace = (CreateSnapshotAndQuit h
          { s with g_ignore_activity := true }).trace ↔
            (i : Int) = s.g_timer_idle_timeout)) := by
  obtain ⟨W, hWn⟩ : ∃ W : Nat, s.g_timer_idle_warning = W :=
    ⟨s.g_timer_idle_warning.toNat, (Int.toNat_of_nonneg (by omega)).symm⟩
  obtain ⟨T, hTn⟩ : ∃ T : Nat, s.g_timer_idle_timeout = T :=
    ⟨s.g_timer_idle_timeout.toNat, (Int.toNat_of_nonneg (by omega)).symm⟩
  have hfuel : T + 1 ≤ fuel := by omega
  have hshape := runTimer_from_zero_shape h s W T hl hWn hTn fuel hfuel
  have htoNat : s.g_timer_idle_timeout.toNat = T := by rw [hTn]; exact Int.toNat_natCast T
  refine ⟨?_, ?_, ?_⟩
  · rw [hshape.1, hTn]; push_cast; rfl
  · have hlast := hshape.2.1
    rw [← hTn] at hlast
    rw [htoNat]
    exact hlast
  · intro i t hit
    have hi := hshape.2.2 i t hit
    refine ⟨hi.1, ?_, ?_⟩
    · rw [hi.2.1, hTn]; exact Nat.cast_inj.symm
    · rw [hi.2.2, hTn]; exact Nat.cast_inj.symm

/-- C3 (witness): thresholds 3s and 5s, last activity at 0, fuel 10: the run has
six ticks and the sixth, at t = 6s, returns -1 with the trace of the terminal
action. -/
theorem runTimer_terminal_exactly_once_witness :
    state35.g_last_activity = 0 ∧
    0 < state35.g_timer_idle_warning ∧
    state35.g_timer_idle_warning < state35.g_timer_idle_timeout ∧
    state35.g_timer_idle_timeout + 1 ≤ ((10 : Nat) : Int) ∧
    ((runTimer hostNoDatabase 10 state35 (1 * kClockPeriodsPerSecond)).length : Int)
      = state35.g_timer_idle_timeout + 1 ∧
    (runTimer hostNoDatabase 10 state35
        (1 * kClockPeriodsPerSecond))[state35.g_timer_idle_timeout.toNat]? =
      some { time := (state35.g_timer_idle_timeout + 1) * kClockPeriodsPerSecond
             ret := -1
             trace := (CreateSnapshotAndQuit hostNoDatabase
               { state35 with g_ignore_activity := true }).trace } :=
  ⟨rfl, by decide, by decide, by decide,
   (runTimer_terminal_exactly_once hostNoDatabase state35 rfl (by decide) (by decide)
      10 (by decide)).1,
   (runTimer_terminal_exactly_once hostNoDatabase state35 rfl (by decide) (by decide)
      10 (by decide)).2.1⟩

/-! ## Ticks measured from a baseline -/

theorem OnTimer_trace_whole (h : Host) (s : State) (d : Int)
    (hd : d ≤ s.g_timer_idle_timeout) :
    (OnTimer h s (s.g_last_activity + d * kClockPeriodsPerSecond)).trace =
      if d = s.g_timer_idle_warning + 1 then WarnIdle s else [] := by
  have hidle := idleSeconds_whole s d
  rw [OnTimer_of_le h s _ (by rw [hidle]; exact hd)]
  dsimp only
  rw [hidle]

theorem OnUiNotification_state_active (s : State) (now : Int)
    (hact : s.g_ignore_activity = false) :
    (OnUiNotification s now).state = { s with g_last_activity := now } := by
  unfold OnUiNotification
  simp [hact]

theorem OnUiNotification_state_ignored (s : State) (now : Int)
    (hign : s.g_ignore_activity = true) :
    (OnUiNotification s now).state = s := by
  unfold OnUiNotification
  simp [hign]

/-- C4 (counterexample): with thresholds 3s < 5s and no activity since 0, the
tick at t = 3s (idle duration equal to WarningInterval) emits nothing and the
tick at t = 4s emits the warning; after an activity event at t = 2s recorded
with suppression false, the tick at t = 5s (idle duration 3s) emits nothing
and the warning comes at t = 6s. -/
theorem tick_at_warning_interval_is_silent :
    (0 : Int) < state35.g_timer_idle_warning ∧
    state35.g_timer_idle_warning < state35.g_timer_idle_timeout ∧
    WarnIdle state35 ≠ [] ∧
    (OnTimer hostNoDatabase state35 3000000000).trace = [] ∧
    (OnTimer hostNoDatabase state35 4000000000).trace = WarnIdle state35 ∧
    state35.g_ignore_activity = false ∧
    (OnTimer hostNoDatabase (OnUiNotification state35 2000000000).state
      5000000000).trace = [] ∧
    (OnTimer hostNoDatabase (OnUiNotification state35 2000000000).state
      6000000000).trace = WarnIdle state35 := by
  refine ⟨by decide, by decide, by simp [WarnIdle], by decide, ?_, rfl, by decide, ?_⟩
  · have h4 := OnTimer_trace_whole hostNoDatabase state35 4 (by decide)
    rw [if_pos (by decide)] at h4
    exact h4
  · have h6 := OnTimer_trace_whole hostNoDatabase
      (OnUiNotification state35 2000000000).state 4 (by decide)
    rw [if_pos (by decide)] at h6
    exact h6

/-- C4 (amended): for all whole-second thresholds Warning < Timeout (in
particular 0 < Warning) and every baseline a (the stored last-activity time
when there was no activity, or the time of an activity event recorded with
suppression false): every tick at a + d with d <= Warning emits nothing, the
tick at a + Warning + 1s emits the warning, and every tick at a + d with
Warning + 1s < d <= Timeout emits nothing. -/
theorem warning_tick_from_baseline (h : Host) (s : State) (a d : Int)
    (hWT : s.g_timer_idle_warning < s.g_timer_idle_timeout) :
    ((d ≤ s.g_timer_idle_warning →
        (OnTimer h s (s.g_last_activity + d * kClockPeriodsPerSecond)).trace = []) ∧
      (OnTimer h s (s.g_last_activity +
        (s.g_timer_idle_warning + 1) * kClockPeriodsPerSecond)).trace = WarnIdle s ∧
      (s.g_timer_idle_warning + 1 < d → d ≤ s.g_timer_idle_timeout →
        (OnTimer h s (s.g_last_activity + d * kClockPeriodsPerSecond)).trace = [])) ∧
    (s.g_ignore_activity = false →
      (OnUiNotification s a).state.g_last_activity = a ∧
      (d ≤ s.g_timer_idle_warning →
        (OnTimer h (OnUiNotification s a).state
          (a + d * kClockPeriodsPerSecond)).trace = []) ∧
      (OnTimer h (OnUiNotification s a).state
        (a + (s.g_timer_idle_warning + 1) * kClockPeriodsPerSecond)).trace
          = WarnIdle s ∧
      (s.g_timer_idle_warning + 1 < d → d ≤ s.g_timer_idle_timeout →
        (OnTimer h (OnUiNotification s a).state
          (a + d * kClockPeriodsPerSecond)).trace = [])) := by
  have key : ∀ b : State, b.g_timer_idle_warning = s.g_timer_idle_warning →
      b.g_timer_idle_timeout = s.g_timer_idle_timeout →
      (d ≤ s.g_timer_idle_warning →
        (OnTimer h b (b.g_last_activity + d * kClockPeriodsPerSecond)).trace = []) ∧
      (OnTimer h b (b.g_last_activity +
        (s.g_timer_idle_warning + 1) * kClockPeriodsPerSecond)).trace = WarnIdle s ∧
      (s.g_timer_idle_warning + 1 < d → d ≤ s.g_timer_idle_timeout →
        (OnTimer h b (b.g_last_activity + d * kClockPeriodsPerSecond)).trace = []) := by
    intro b hw ht
    refine ⟨?_, ?_, ?_⟩
    · intro hd
      rw [OnTimer_trace_whole h b d (by omega), if_neg (by omega)]
    · rw [OnTimer_trace_whole h b _ (by omega), if_pos (by omega)]
      exact WarnIdle_of_thresholds s b hw ht
    · intro hd1 hd2
      rw [OnTimer_trace_whole h b d (by omega), if_neg (by omega)]
  refine ⟨key s rfl rfl, ?_⟩
  intro hact
  have hb := OnUiNotification_state_active s a hact
  have hk := key (OnUiNotification s a).state (by rw [hb]) (by rw [hb])
  have hla : (OnUiNotification s a).state.g_last_activity = a := by rw [hb]
  rw [hla] at hk
  exact ⟨hla, hk⟩

/-- C4 (witness): thresholds 3s and 5s.  Without activity since 0 the tick at
4s emits the warning; after an activity event at 2s the tick at 6s emits
it. -/
theorem warning_tick_from_baseline_witness :
    state35.g_timer_idle_warning < state35.g_timer_idle_timeout ∧
    state35.g_ignore_activity = false ∧
    (OnTimer hostNoDatabase state35 (state35.g_last_activity +
      (state35.g_timer_idle_warning + 1) * kClockPeriodsPerSecond)).trace
        = WarnIdle state35 ∧
    (OnTimer hostNoDatabase (OnUiNotification state35 2000000000).state
      (2000000000 + (state35.g_timer_idle_warning + 1) * kClockPeriodsPerSecond)).trace
        = WarnIdle state35 :=
  ⟨by decide, rfl,
   (warning_tick_from_baseline hostNoDatabase state35 2000000000 0 (by decide)).1.2.1,
   ((warning_tick_from_baseline hostNoDatabase state35 2000000000 0 (by decide)).2
      rfl).2.2.1⟩

/-! ## One warning per idle episode -/

/-- C5: for all whole-second thresholds 0 <= Warning < Timeout and every
baseline, in the run of ticks at idle durations 1s, 2s, 3s, ... with no
activity in between, exactly one tick emits the warning (the one at index
Warning, idle duration Warning + 1s); it comes before the tick that runs the
terminal action (index Timeout, the last of the run), and every other tick
before the terminal one emits nothing. -/
theorem warning_once_per_episode (h : Host) (s : State) (W T : Nat)
    (hWT : W < T)
    (hW : s.g_timer_idle_warning = W) (hT : s.g_timer_idle_timeout = T)
    (fuel : Nat) (hf : T + 1 ≤ fuel) :
    (∀ (i : Nat) (t : Tick),
      (runTimer h fuel s (s.g_last_activity + 1 * kClockPeriodsPerSecond))[i]? = some t →
        t.time = s.g_last_activity + ((i : Int) + 1) * kClockPeriodsPerSecond ∧
        (t.trace = WarnIdle s ↔ i = W) ∧
        (i ≠ W → i < T → t.trace = [])) ∧
    (∃ t : Tick,
      (runTimer h fuel s (s.g_last_activity + 1 * kClockPeriodsPerSecond))[W]? = some t ∧
        t.trace = WarnIdle s ∧ t.ret = 1000) ∧
    (∃ t : Tick,
      (runTimer h fuel s (s.g_last_activity + 1 * kClockPeriodsPerSecond))[T]? = some t ∧
        t.ret = -1 ∧
        t.trace = (CreateSnapshotAndQuit h { s with g_ignore_activity := true }).trace) ∧
    (runTimer h fuel s (s.g_last_activity + 1 * kClockPeriodsPerSecond)).length
      = T + 1 := by
  have hlast := runTimer_idle_last h s W T hW hT fuel hf
  refine ⟨?_, ?_, ?_, runTimer_idle_length h s W T hW hT fuel hf⟩
  · intro i t hit
    rcases Nat.lt_trichotomy i T with hi | hi | hi
    · rw [runTimer_idle_before h s W T hW hT fuel hf i hi] at hit
      have ht : t = idleTick s s.g_last_activity W (i + 1) := (Option.some.inj hit).symm
      subst ht
      unfold idleTick
      dsimp only
      refine ⟨by push_cast; rfl, ?_, ?_⟩
      · constructor
        · intro htr
          by_contra hne
          rw [if_neg (by omega)] at htr
          simp [WarnIdle] at htr
        · intro heq
          rw [if_pos (by omega)]
      · intro hne _
        rw [if_neg (by omega)]
    · subst hi
      rw [hlast] at hit
      have ht := (Option.some.inj hit).symm
      subst ht
      unfold terminalTick
      dsimp only
      refine ⟨by push_cast; rfl, ?_, ?_⟩
      · constructor
        · intro htr
          exact absurd htr (CreateSnapshotAndQuit_trace_ne_WarnIdle h s s)
        · intro heq; omega
      · intro _ hlt; omega
    · rw [runTimer_idle_after h s W T hW hT fuel hf i hi] at hit
      exact absurd hit (by simp)
  · refine ⟨_, runTimer_idle_before h s W T hW hT fuel hf W hWT, ?_, rfl⟩
    unfold idleTick
    dsimp only
    rw [if_pos rfl]
  · refine ⟨_, hlast, rfl, ?_⟩
    unfold terminalTick
    exact CreateSnapshotAndQuit_trace_state h { s with g_ignore_activity := true } s

/-- C5 (witness): thresholds 3s and 5s, last activity at 0, fuel 10: only the
tick at index 3 (idle duration 4s) emits the warning, and the terminal action
is at index 5. -/
theorem warning_once_per_episode_witness :
    3 < 5 ∧ 5 + 1 ≤ 10 ∧
    (∃ t : Tick,
      (runTimer hostNoDatabase 10 state35
        (state35.g_last_activity + 1 * kClockPeriodsPerSecond))[3]? = some t ∧
        t.trace = WarnIdle state35 ∧ t.ret = 1000) ∧
    (runTimer hostNoDatabase 10 state35
      (state35.g_last_activity + 1 * kClockPeriodsPerSecond)).length = 5 + 1 :=
  ⟨by decide, by decide,
   (warning_once_per_episode hostNoDatabase state35 3 5 (by decide) rfl rfl 10
      (by decide)).2.1,
   (warning_once_per_episode hostNoDatabase state35 3 5 (by decide) rfl rfl 10
      (by decide)).2.2.2⟩

/-! ## Recording activity -/

/-- C6: for every state and instant, OnUiNotification returns 0 and makes no
SDK call; with the suppression flag false it stores `now` as the last
activity (nothing else changes), so the idle duration at `now` is zero and a
tick at a later instant measures from `now`; with the flag true the state,
and so every later idle duration, is unchanged. -/
theorem OnUiNotification_records_activity (s : State) (now later : Int) :
    (OnUiNotification s now).ret = 0 ∧
    (OnUiNotification s now).trace = [] ∧
    (s.g_ignore_activity = false →
      (OnUiNotification s now).state = { s with g_last_activity := now } ∧
      (OnUiNotification s now).state.g_last_activity = now ∧
      now - (OnUiNotification s now).state.g_last_activity = 0 ∧
      idleSeconds (OnUiNotification s now).state now = 0 ∧
      later - (OnUiNotification s now).state.g_last_activity = later - now ∧
      idleSeconds (OnUiNotification s now).state later =
        Int.tdiv (later - now) kClockPeriodsPerSecond) ∧
    (s.g_ignore_activity = true →
      (OnUiNotification s now).state = s ∧
      (OnUiNotification s now).state.g_last_activity = s.g_last_activity ∧
      idleSeconds (OnUiNotification s now).state later = idleSeconds s later) := by
  refine ⟨rfl, rfl, ?_, ?_⟩
  · intro hact
    rw [OnUiNotification_state_active s now hact]
    refine ⟨rfl, rfl, ?_, ?_, rfl, rfl⟩
    · exact sub_self now
    · unfold idleSeconds
      dsimp only
      rw [sub_self]
      exact Int.zero_tdiv _
  · intro hign
    rw [OnUiNotification_state_ignored s now hign]
    exact ⟨rfl, rfl, rfl⟩

/-- C6 (witness): from the initial globals (flag false) an event at 2s moves
the last activity to 2s; with the flag set it stays at 0. -/
theorem OnUiNotification_records_activity_witness :
    (OnUiNotification state35 2000000000).state.g_last_activity = 2000000000 ∧
    (OnUiNotification { state35 with g_ignore_activity := true }
      2000000000).state.g_last_activity = 0 :=
  ⟨((OnUiNotification_records_activity state35 2000000000 5000000000).2.2.1
      rfl).2.1,
   ((OnUiNotification_records_activity { state35 with g_ignore_activity := true }
      2000000000 5000000000).2.2.2 rfl).2.1⟩

/-! ## The terminal action -/

/-- C7 (counterexample): thresholds 3s < 5s, last activity at 0, a database is
open and its snapshot fails; the tick at 6s is past the timeout and returns
the stop signal -1, not the reschedule interval 1000. -/
theorem OnTimer_failed_snapshot_stops_timer :
    0 < hostSnapshotFails.idb_path.length ∧
    hostSnapshotFails.take_database_snapshot = Except.error "disk full" ∧
    state35.g_timer_idle_timeout < idleSeconds state35 6000000000 ∧
    state35.g_timer_idle_timeout * kClockPeriodsPerSecond
      ≤ 6000000000 - state35.g_last_activity ∧
    (OnTimer hostSnapshotFails state35 6000000000).ret = -1 ∧
    (OnTimer hostSnapshotFails state35 6000000000).ret ≠ kTimerIntervalMs ∧
    (runTimer hostSnapshotFails 10 state35 6000000000).length = 1 := by
  refine ⟨by decide, rfl, by decide, by decide, by decide, by decide, by decide⟩

/-- C7 (amended): when a tick reaches the timeout (idle duration cast to whole
seconds greater than TimeoutInterval) and the snapshot fails (a database is
open, take_database_snapshot returns false), the terminal action emits a
warning notification and requests neither the disposable flag nor process
exit; the tick returns the stop signal -1 like every tick that reaches the
timeout, so the timer is cancelled (the run ends with this tick) and the
suppression flag stays true. -/
theorem OnTimer_failed_snapshot (h : Host) (s : State) (now : Int) (err : String)
    (hpath : 0 < h.idb_path.length)
    (hfail : h.take_database_snapshot = Except.error err)
    (hgt : s.g_timer_idle_timeout < idleSeconds s now) :
    (OnTimer h s now).ret = -1 ∧
    (OnTimer h s now).trace =
      [Event.msg "IDA Idle: Saving snapshot...\n",
       Event.take_database_snapshot "IDA Idle auto snapshot",
       Event.warning ("IDA Idle: Could not take a database snapshot: " ++ err)] ∧
    (∀ code : Int, Event.execute_ui_requests_qexit code ∉ (OnTimer h s now).trace) ∧
    (∀ flag : Nat, Event.set_database_flag flag ∉ (OnTimer h s now).trace) ∧
    (OnTimer h s now).state = { s with g_ignore_activity := true } ∧
    (∀ fuel : Nat, runTimer h (fuel + 1) s now =
      [{ time := now, ret := -1, trace := (OnTimer h s now).trace }]) := by
  have hcsq : CreateSnapshotAndQuit h { s with g_ignore_activity := true } =
      { state := { s with g_ignore_activity := true }
        ret := 0
        trace :=
          [Event.msg "IDA Idle: Saving snapshot...\n",
           Event.take_database_snapshot "IDA Idle auto snapshot",
           Event.warning ("IDA Idle: Could not take a database snapshot: " ++ err)] } := by
    unfold CreateSnapshotAndQuit
    rw [if_pos hpath, hfail]
  have hon := OnTimer_of_gt h s now hgt
  rw [hcsq] at hon
  have hret : (OnTimer h s now).ret = -1 := by rw [hon]
  refine ⟨hret, by rw [hon], ?_, ?_, by rw [hon], ?_⟩
  · intro code; rw [hon]; simp
  · intro flag; rw [hon]; simp
  · intro fuel
    unfold runTimer
    simp only [hret, if_true]

/-- C7 (witness): thresholds 3s and 5s, last activity at 0, failing snapshot:
the tick at 6s returns -1 and the flag stays true. -/
theorem OnTimer_failed_snapshot_witness :
    0 < hostSnapshotFails.idb_path.length ∧
    state35.g_timer_idle_timeout < idleSeconds state35 6000000000 ∧
    (OnTimer hostSnapshotFails state35 6000000000).ret = -1 ∧
    (OnTimer hostSnapshotFails state35 6000000000).state =
      { state35 with g_ignore_activity := true } :=
  ⟨by decide, by decide,
   (OnTimer_failed_snapshot hostSnapshotFails state35 6000000000 "disk full"
      (by decide) rfl (by decide)).1,
   (OnTimer_failed_snapshot hostSnapshotFails state35 6000000000 "disk full"
      (by decide) rfl (by decide)).2.2.2.2.1⟩

/-- C8: for every outcome of the persistence collaborator, CreateSnapshotAndQuit
attempts a snapshot iff the database path is non-empty; it sets DBFL_TEMP iff
a snapshot was attempted and succeeded; it requests process exit iff the
snapshot was skipped or succeeded (so never after a failed one); and when it
both sets the flag and requests exit, the flag comes first in the trace. -/
theorem CreateSnapshotAndQuit_steps (h : Host) (s : State) :
    (Event.take_database_snapshot "IDA Idle auto snapshot"
        ∈ (CreateSnapshotAndQuit h s).trace ↔ 0 < h.idb_path.length) ∧
    (Event.set_database_flag DBFL_TEMP ∈ (CreateSnapshotAndQuit h s).trace ↔
      0 < h.idb_path.length ∧ ∃ f, h.take_database_snapshot = Except.ok f) ∧
    (Event.execute_ui_requests_qexit 0 ∈ (CreateSnapshotAndQuit h s).trace ↔
      h.idb_path.length = 0 ∨ ∃ f, h.take_database_snapshot = Except.ok f) ∧
    ((0 < h.idb_path.length ∧ ∃ e, h.take_database_snapshot = Except.error e) →
      ∀ code : Int,
        Event.execute_ui_requests_qexit code ∉ (CreateSnapshotAndQuit h s).trace) ∧
    (Event.set_database_flag DBFL_TEMP ∈ (CreateSnapshotAndQuit h s).trace →
      ∃ pre post : List Event,
        (CreateSnapshotAndQuit h s).trace =
          pre ++ Event.set_database_flag DBFL_TEMP :: post ∧
        Event.execute_ui_requests_qexit 0 ∈ post ∧
        (∀ code : Int, Event.execute_ui_requests_qexit code ∉ pre)) := by
  unfold CreateSnapshotAndQuit
  by_cases hp : 0 < h.idb_path.length
  · rw [if_pos hp]
    cases hsnap : h.take_database_snapshot with
    | error e =>
      have hp0 : h.idb_path.length ≠ 0 := by omega
      simp [hp, hp0]
    | ok f =>
      refine ⟨by simp [hp], by simp [hp], by simp, by simp, ?_⟩
      intro _
      refine ⟨[Event.msg "IDA Idle: Saving snapshot...\n",
        Event.take_database_snapshot "IDA Idle auto snapshot",
        Event.msg ("IDA Idle: Saved snapshot to: " ++ f ++ "\n")],
        [Event.msg "IDA Idle: Closing IDA...\n", Event.execute_ui_requests_qexit 0],
        by simp, by simp, by simp⟩
  · rw [if_neg hp]
    have hp0 : h.idb_path.length = 0 := by omega
    simp [hp0]

/-- C8 (witness): with a database open and a failing snapshot no exit is
requested; with a succeeding snapshot the flag is set. -/
theorem CreateSnapshotAndQuit_steps_witness :
    Event.execute_ui_requests_qexit 0
      ∉ (CreateSnapshotAndQuit hostSnapshotFails state35).trace ∧
    Event.set_database_flag DBFL_TEMP
      ∈ (CreateSnapshotAndQuit hostSnapshotOk state35).trace :=
  ⟨(CreateSnapshotAndQuit_steps hostSnapshotFails state35).2.2.2.1
      ⟨by decide, "disk full", rfl⟩ 0,
   (CreateSnapshotAndQuit_steps hostSnapshotOk state35).2.1.mpr
      ⟨by decide, "work_snapshot.idb", rfl⟩⟩

/-! ## Thresholds chosen at start-up -/

theorem toInt32_default_warning : toInt32 21600 = 21600 := by decide

theorem toInt32_default_timeout : toInt32 43200 = 43200 := by decide

theorem atoi_GetArgument_absent (h : Host) (name : String)
    (habs : h.get_plugin_options ("IdaIdle" ++ name) = none) :
    atoi (GetArgument h name) = 0 := by
  unfold GetArgument
  rw [habs]
  decide

theorem PluginInit_thresholds (h : Host) (s : State) (ws ts : Int)
    (hdw : s.g_timer_idle_warning = 21600) (hdt : s.g_timer_idle_timeout = 43200)
    (hws : atoi (GetArgument h "WarningSeconds") = ws)
    (hts : atoi (GetArgument h "TimeoutSeconds") = ts) :
    ((if ws = 0 then 21600 else ws) < (if ts = 0 then 43200 else ts) →
      (PluginInit h s).state.g_timer_idle_warning = (if ws = 0 then 21600 else ws) ∧
      (PluginInit h s).state.g_timer_idle_timeout = (if ts = 0 then 43200 else ts)) ∧
    (¬ (if ws = 0 then 21600 else ws) < (if ts = 0 then 43200 else ts) →
      (PluginInit h s).state.g_timer_idle_warning = 21600 ∧
      (PluginInit h s).state.g_timer_idle_timeout = 43200 ∧
      Event.msg "IDA Idle: Timeout smaller or equal to warning interval, both ignored\n"
        ∈ (PluginInit h s).trace) := by
  unfold PluginInit
  simp only [hws, hts, hdw, hdt, toInt32_default_warning, toInt32_default_timeout]
  generalize (if ws = 0 then (21600 : Int) else ws) = w
  generalize (if ts = 0 then (43200 : Int) else ts) = t
  constructor
  · intro hlt
    rw [if_pos hlt]
    by_cases h1 : w = 21600 <;> by_cases h2 : t = 43200 <;>
      by_cases h3 : h.hook_to_notification_point = true <;>
      simp [h1, h2, h3, hdw, hdt]
  · intro hge
    rw [if_neg hge]
    by_cases h3 : h.hook_to_notification_point = true <;> simp [h3, hdw, hdt]

theorem atoi_option_absent (h : Host) (name key : String) (v : Int)
    (hkey : "IdaIdle" ++ name = key)
    (hv : atoi (GetArgument h name) = v)
    (habs : h.get_plugin_options key = none) : v = 0 := by
  rw [← hv]
  exact atoi_GetArgument_absent h name (by rw [hkey]; exact habs)

/-- C9: start-up from the built-in defaults (6h, 12h).  Let ws and ts be the
integer values of the two settings (an absent setting reads as 0), each
replaced by its default (21600, 43200) when 0.  If the resulting warning is
not below the resulting timeout, PluginInit leaves both thresholds at the
defaults and emits the diagnostic message. -/
theorem PluginInit_rejects_inverted_thresholds (h : Host) (s : State) (ws ts : Int)
    (hdw : s.g_timer_idle_warning = 21600) (hdt : s.g_timer_idle_timeout = 43200)
    (hws : atoi (GetArgument h "WarningSeconds") = ws)
    (hts : atoi (GetArgument h "TimeoutSeconds") = ts)
    (hge : (if ts = 0 then 43200 else ts) ≤ (if ws = 0 then 21600 else ws)) :
    (PluginInit h s).state.g_timer_idle_warning = 6 * 3600 ∧
    (PluginInit h s).state.g_timer_idle_timeout = 12 * 3600 ∧
    Event.msg "IDA Idle: Timeout smaller or equal to warning interval, both ignored\n"
      ∈ (PluginInit h s).trace ∧
    (h.get_plugin_options "IdaIdleWarningSeconds" = none → ws = 0) ∧
    (h.get_plugin_options "IdaIdleTimeoutSeconds" = none → ts = 0) := by
  have hmain := (PluginInit_thresholds h s ws ts hdw hdt hws hts).2 (not_lt.mpr hge)
  exact ⟨hmain.1, hmain.2.1, hmain.2.2,
    atoi_option_absent h "WarningSeconds" _ ws (by decide) hws,
    atoi_option_absent h "TimeoutSeconds" _ ts (by decide) hts⟩

/-- C9 (witness): WarningSeconds = 50000 and no TimeoutSeconds: 50000 is not
below the default timeout 43200, so both thresholds stay at the defaults. -/
theorem PluginInit_rejects_inverted_thresholds_witness :
    atoi (GetArgument (hostWarningOption "50000") "WarningSeconds") = 50000 ∧
    atoi (GetArgument (hostWarningOption "50000") "TimeoutSeconds") = 0 ∧
    (PluginInit (hostWarningOption "50000") initialState).state.g_timer_idle_warning
      = 6 * 3600 ∧
    (PluginInit (hostWarningOption "50000") initialState).state.g_timer_idle_timeout
      = 12 * 3600 :=
  ⟨by decide, by decide,
   (PluginInit_rejects_inverted_thresholds (hostWarningOption "50000") initialState
      50000 0 rfl rfl (by decide) (by decide) (by decide)).1,
   (PluginInit_rejects_inverted_thresholds (hostWarningOption "50000") initialState
      50000 0 rfl rfl (by decide) (by decide) (by decide)).2.1⟩

/-- C10: start-up from the built-in defaults.  Let ws and ts be the integer
values of the two settings (an absent setting reads as 0), w = ws or 21600
when ws is 0, t = ts or 43200 when ts is 0.  If w < t, the thresholds after
PluginInit are exactly w seconds and t seconds, also when only one setting is
supplied. -/
theorem PluginInit_activates_valid_thresholds (h : Host) (s : State) (ws ts : Int)
    (hdw : s.g_timer_idle_warning = 21600) (hdt : s.g_timer_idle_timeout = 43200)
    (hws : atoi (GetArgument h "WarningSeconds") = ws)
    (hts : atoi (GetArgument h "TimeoutSeconds") = ts)
    (hlt : (if ws = 0 then 21600 else ws) < (if ts = 0 then 43200 else ts)) :
    (PluginInit h s).state.g_timer_idle_warning = (if ws = 0 then 21600 else ws) ∧
    (PluginInit h s).state.g_timer_idle_timeout = (if ts = 0 then 43200 else ts) ∧
    (h.get_plugin_options "IdaIdleWarningSeconds" = none → ws = 0) ∧
    (h.get_plugin_options "IdaIdleTimeoutSeconds" = none → ts = 0) := by
  have hmain := (PluginInit_thresholds h s ws ts hdw hdt hws hts).1 hlt
  exact ⟨hmain.1, hmain.2,
    atoi_option_absent h "WarningSeconds" _ ws (by decide) hws,
    atoi_option_absent h "TimeoutSeconds" _ ts (by decide) hts⟩

/-- C10 (witness): WarningSeconds = 100 and no TimeoutSeconds: the thresholds
are 100s and the default 43200s. -/
theorem PluginInit_activates_valid_thresholds_witness :
    atoi (GetArgument (hostWarningOption "100") "WarningSeconds") = 100 ∧
    (hostWarningOption "100").get_plugin_options "IdaIdleTimeoutSeconds" = none ∧
    (PluginInit (hostWarningOption "100") initialState).state.g_timer_idle_warning
      = 100 ∧
    (PluginInit (hostWarningOption "100") initialState).state.g_timer_idle_timeout
      = 43200 :=
  ⟨by decide, by decide,
   (PluginInit_activates_valid_thresholds (hostWarningOption "100") initialState
      100 0 rfl rfl (by decide) (by decide) (by decide)).1,
   (PluginInit_activates_valid_thresholds (hostWarningOption "100") initialState
      100 0 rfl rfl (by decide) (by decide) (by decide)).2.1⟩

/-! ## Frame facts -/

theorem CreateSnapshotAndQuit_frame (h : Host) (s : State) :
    (CreateSnapshotAndQuit h s).state.g_timer_handle = s.g_timer_handle ∧
    (CreateSnapshotAndQuit h s).state.g_last_activity = s.g_last_activity ∧
    (CreateSnapshotAndQuit h s).state.g_timer_idle_warning = s.g_timer_idle_warning ∧
    (CreateSnapshotAndQuit h s).state.g_timer_idle_timeout = s.g_timer_idle_timeout := by
  unfold CreateSnapshotAndQuit
  split
  · split <;> exact ⟨rfl, rfl, rfl, rfl⟩
  · exact ⟨rfl, rfl, rfl, rfl⟩

theorem CreateSnapshotAndQuit_keeps_flag (h : Host) (s : State)
    (hflag : s.g_ignore_activity = true) :
    (CreateSnapshotAndQuit h s).state.g_ignore_activity = true := by
  unfold CreateSnapshotAndQuit
  split
  · split
    · exact hflag
    · rfl
  · rfl

theorem OnTimer_frame (h : Host) (s : State) (now : Int) :
    (OnTimer h s now).state.g_timer_handle = s.g_timer_handle ∧
    (OnTimer h s now).state.g_last_activity = s.g_last_activity ∧
    (OnTimer h s now).state.g_timer_idle_warning = s.g_timer_idle_warning ∧
    (OnTimer h s now).state.g_timer_idle_timeout = s.g_timer_idle_timeout := by
  rcases lt_or_le s.g_timer_idle_timeout (idleSeconds s now) with hgt | hle
  · rw [OnTimer_of_gt h s now hgt]
    exact CreateSnapshotAndQuit_frame h { s with g_ignore_activity := true }
  · rw [OnTimer_of_le h s now hle]
    exact ⟨rfl, rfl, rfl, rfl⟩

theorem OnUiNotification_frame (s : State) (now : Int) :
    (OnUiNotification s now).state.g_timer_handle = s.g_timer_handle ∧
    (OnUiNotification s now).state.g_ignore_activity = s.g_ignore_activity ∧
    (OnUiNotification s now).state.g_timer_idle_warning = s.g_timer_idle_warning ∧
    (OnUiNotification s now).state.g_timer_idle_timeout = s.g_timer_idle_timeout := by
  unfold OnUiNotification
  dsimp only
  split <;> exact ⟨rfl, rfl, rfl, rfl⟩

theorem applyAction_thresholds (h : Host) (s : State) (a : Action) :
    (applyAction h s a).g_timer_idle_warning = s.g_timer_idle_warning ∧
    (applyAction h s a).g_timer_idle_timeout = s.g_timer_idle_timeout := by
  cases a with
  | tick now => exact ⟨(OnTimer_frame h s now).2.2.1, (OnTimer_frame h s now).2.2.2⟩
  | activity now =>
    exact ⟨(OnUiNotification_frame s now).2.2.1, (OnUiNotification_frame s now).2.2.2⟩
  | terminal =>
    exact ⟨(CreateSnapshotAndQuit_frame h s).2.2.1, (CreateSnapshotAndQuit_frame h s).2.2.2⟩

theorem runActions_thresholds (h : Host) (acts : List Action) :
    ∀ s : State,
      (runActions h s acts).g_timer_idle_warning = s.g_timer_idle_warning ∧
      (runActions h s acts).g_timer_idle_timeout = s.g_timer_idle_timeout := by
  induction acts with
  | nil => intro s; exact ⟨rfl, rfl⟩
  | cons a rest ih =>
    intro s
    have hstep := applyAction_thresholds h s a
    have hrest := ih (applyAction h s a)
    unfold runActions at hrest ⊢
    rw [List.foldl_cons]
    exact ⟨hrest.1.trans hstep.1, hrest.2.trans hstep.2⟩

theorem PluginInit_ordered (h : Host) (s : State)
    (hdw : s.g_timer_idle_warning = 21600) (hdt : s.g_timer_idle_timeout = 43200) :
    (PluginInit h s).state.g_timer_idle_warning
      < (PluginInit h s).state.g_timer_idle_timeout := by
  have hmain := PluginInit_thresholds h s _ _ hdw hdt rfl rfl
  by_cases hlt :
      (if atoi (GetArgument h "WarningSeconds") = 0 then (21600 : Int)
        else atoi (GetArgument h "WarningSeconds"))
      < (if atoi (GetArgument h "TimeoutSeconds") = 0 then (43200 : Int)
        else atoi (GetArgument h "TimeoutSeconds"))
  · have h1 := hmain.1 hlt
    rw [h1.1, h1.2]
    exact hlt
  · have h2 := hmain.2 hlt
    rw [h2.1, h2.2.1]
    decide

/-! ## The order of the thresholds -/

/-- C11: start-up from the built-in defaults, with any plugin options (a
number, 0, absent, or text that is not a number).  After PluginInit the
warning threshold is below the timeout threshold, and every sequence of later
ticks, activity events and terminal actions leaves both thresholds as they
were, so the inequality is preserved; the same preservation holds from every
state whose thresholds are ordered. -/
theorem thresholds_stay_ordered (h : Host) (s : State)
    (hdw : s.g_timer_idle_warning = 21600) (hdt : s.g_timer_idle_timeout = 43200)
    (acts : List Action) :
    (PluginInit h s).state.g_timer_idle_warning
      < (PluginInit h s).state.g_timer_idle_timeout ∧
    (runActions h (PluginInit h s).state acts).g_timer_idle_warning
      < (runActions h (PluginInit h s).state acts).g_timer_idle_timeout ∧
    (∀ (s1 : State) (now : Int),
      s1.g_timer_idle_warning < s1.g_timer_idle_timeout →
        (OnTimer h s1 now).state.g_timer_idle_warning
          < (OnTimer h s1 now).state.g_timer_idle_timeout ∧
        (OnUiNotification s1 now).state.g_timer_idle_warning
          < (OnUiNotification s1 now).state.g_timer_idle_timeout ∧
        (CreateSnapshotAndQuit h s1).state.g_timer_idle_warning
          < (CreateSnapshotAndQuit h s1).state.g_timer_idle_timeout) := by
  have hinit := PluginInit_ordered h s hdw hdt
  have hrun := runActions_thresholds h acts (PluginInit h s).state
  refine ⟨hinit, ?_, ?_⟩
  · rw [hrun.1, hrun.2]
    exact hinit
  · intro s1 now hord
    have ht := OnTimer_frame h s1 now
    have hu := OnUiNotification_frame s1 now
    have hc := CreateSnapshotAndQuit_frame h s1
    rw [ht.2.2.1, ht.2.2.2, hu.2.2.1, hu.2.2.2, hc.2.2.1, hc.2.2.2]
    exact ⟨hord, hord, hord⟩

/-- C11 (witness): the option WarningSeconds is the text "abc", which reads as
0; after start-up, a tick, an activity event and a terminal action the
thresholds are still ordered. -/
theorem thresholds_stay_ordered_witness :
    atoi (GetArgument (hostWarningOption "abc") "WarningSeconds") = 0 ∧
    (PluginInit (hostWarningOption "abc") initialState).state.g_timer_idle_warning
      < (PluginInit (hostWarningOption "abc") initialState).state.g_timer_idle_timeout ∧
    (runActions (hostWarningOption "abc")
        (PluginInit (hostWarningOption "abc") initialState).state
        [Action.tick 1000000000, Action.activity 2000000000,
         Action.terminal]).g_timer_idle_warning
      < (runActions (hostWarningOption "abc")
        (PluginInit (hostWarningOption "abc") initialState).state
        [Action.tick 1000000000, Action.activity 2000000000,
         Action.terminal]).g_timer_idle_timeout :=
  ⟨by decide,
   (thresholds_stay_ordered (hostWarningOption "abc") initialState rfl rfl
      [Action.tick 1000000000, Action.activity 2000000000, Action.terminal]).1,
   (thresholds_stay_ordered (hostWarningOption "abc") initialState rfl rfl
      [Action.tick 1000000000, Action.activity 2000000000, Action.terminal]).2.1⟩

/-! ## The baseline before any activity -/

theorem PluginInit_frame (h : Host) (s : State) :
    (PluginInit h s).state.g_last_activity = s.g_last_activity ∧
    (PluginInit h s).state.g_ignore_activity = s.g_ignore_activity ∧
    (PluginInit h s).state.g_timer_handle = h.register_timer := by
  unfold PluginInit
  dsimp only
  split_ifs <;> exact ⟨rfl, rfl, rfl⟩

theorem runActions_ticks_last_activity (h : Host) (ticks : List Int) :
    ∀ s : State,
      (runActions h s (ticks.map Action.tick)).g_last_activity = s.g_last_activity := by
  induction ticks with
  | nil => intro s; rfl
  | cons t rest ih =>
    intro s
    have hrest := ih (applyAction h s (Action.tick t))
    unfold runActions at hrest ⊢
    rw [List.map_cons, List.foldl_cons, hrest]
    exact (OnTimer_frame h s t).2.1

/-- C12 (counterexample): start-up happens when the monotonic clock reads
50000s and no activity is recorded; the first tick, one second later at
50001s, computes an idle duration of 50001s, not 1s, and since that exceeds
the default timeout of 43200s it runs the terminal action and returns -1. -/
theorem first_tick_measures_from_epoch :
    (PluginInit hostNoDatabase initialState).state.g_last_activity = 0 ∧
    idleSeconds (PluginInit hostNoDatabase initialState).state 50001000000000 = 50001 ∧
    Int.tdiv (50001000000000 - 50000000000000) kClockPeriodsPerSecond = 1 ∧
    idleSeconds (PluginInit hostNoDatabase initialState).state 50001000000000 ≠
      Int.tdiv (50001000000000 - 50000000000000) kClockPeriodsPerSecond ∧
    (OnTimer hostNoDatabase (PluginInit hostNoDatabase initialState).state
      50001000000000).ret = -1 := by
  refine ⟨by decide, by decide, by decide, by decide, by decide⟩

/-- C12 (amended): before any activity has been recorded the idle duration is
measured from the epoch of the monotonic clock, not from start-up: the last
activity is statically initialised to the epoch, PluginInit leaves it
unchanged and so do ticks, so whenever start-up happened a tick at instant
`now` computes the idle duration `now - 0`, the absolute value of the clock,
cast to whole seconds. -/
theorem idle_before_activity_is_clock_value (h : Host) (now : Int) (ticks : List Int) :
    initialState.g_last_activity = 0 ∧
    (PluginInit h initialState).state.g_last_activity = 0 ∧
    (∀ s : State, (PluginInit h s).state.g_last_activity = s.g_last_activity) ∧
    now - (PluginInit h initialState).state.g_last_activity = now ∧
    idleSeconds (PluginInit h initialState).state now
      = Int.tdiv now kClockPeriodsPerSecond ∧
    idleSeconds (runActions h (PluginInit h initialState).state
        (ticks.map Action.tick)) now
      = Int.tdiv now kClockPeriodsPerSecond := by
  have hinit : (PluginInit h initialState).state.g_last_activity = 0 :=
    (PluginInit_frame h initialState).1
  have hticks := runActions_ticks_last_activity h ticks (PluginInit h initialState).state
  refine ⟨rfl, hinit, fun s => (PluginInit_frame h s).1, ?_, ?_, ?_⟩
  · rw [hinit, sub_zero]
  · unfold idleSeconds
    rw [hinit, sub_zero]
  · unfold idleSeconds
    rw [hticks, hinit, sub_zero]

/-! ## The suppression flag after a tick -/

theorem OnTimer_flag_of_gt (h : Host) (s : State) (now : Int)
    (hgt : s.g_timer_idle_timeout < idleSeconds s now) :
    (OnTimer h s now).state.g_ignore_activity = true := by
  rw [OnTimer_of_gt h s now hgt]
  exact CreateSnapshotAndQuit_keeps_flag h { s with g_ignore_activity := true } rfl

theorem runActions_activity_ignored (h : Host) (events : List Int) :
    ∀ s : State, s.g_ignore_activity = true →
      runActions h s (events.map Action.activity) = s := by
  induction events with
  | nil => intro s _; rfl
  | cons t rest ih =>
    intro s hflag
    have hstep : applyAction h s (Action.activity t) = s :=
      OnUiNotification_state_ignored s t hflag
    have hrest := ih s hflag
    unfold runActions at hrest ⊢
    rw [List.map_cons, List.foldl_cons, hstep]
    exact hrest

/-- C13: after a tick that reaches the timeout (idle duration cast to whole
seconds greater than TimeoutInterval) and runs the terminal action, the
suppression flag is true on return for every persistence outcome, and every
sequence of later activity events leaves the whole state unchanged: the flag
stays true and the last-activity time stays what it was before the tick. -/
theorem suppression_permanent_after_timeout (h : Host) (s : State) (now : Int)
    (hgt : s.g_timer_idle_timeout < idleSeconds s now) (events : List Int) :
    (OnTimer h s now).state.g_ignore_activity = true ∧
    runActions h (OnTimer h s now).state (events.map Action.activity)
      = (OnTimer h s now).state ∧
    (runActions h (OnTimer h s now).state
      (events.map Action.activity)).g_ignore_activity = true ∧
    (runActions h (OnTimer h s now).state
      (events.map Action.activity)).g_last_activity = s.g_last_activity ∧
    (∀ t : Int, (OnUiNotification (OnTimer h s now).state t).state
      = (OnTimer h s now).state) := by
  have hflag := OnTimer_flag_of_gt h s now hgt
  have hrun := runActions_activity_ignored h events (OnTimer h s now).state hflag
  refine ⟨hflag, hrun, ?_, ?_, ?_⟩
  · rw [hrun]; exact hflag
  · rw [hrun]; exact (OnTimer_frame h s now).2.1
  · intro t
    exact OnUiNotification_state_ignored _ t hflag

/-- C13 (witness): thresholds 3s and 5s, last activity at 0, failing snapshot:
after the tick at 6s the flag is true and activity events at 7s and 8s leave
the last activity at 0. -/
theorem suppression_permanent_after_timeout_witness :
    state35.g_timer_idle_timeout < idleSeconds state35 6000000000 ∧
    (OnTimer hostSnapshotFails state35 6000000000).state.g_ignore_activity = true ∧
    (runActions hostSnapshotFails (OnTimer hostSnapshotFails state35 6000000000).state
      ([7000000000, 8000000000].map Action.activity)).g_last_activity
        = state35.g_last_activity :=
  ⟨by decide,
   (suppression_permanent_after_timeout hostSnapshotFails state35 6000000000
      (by decide) [7000000000, 8000000000]).1,
   (suppression_permanent_after_timeout hostSnapshotFails state35 6000000000
      (by decide) [7000000000, 8000000000]).2.2.2.1⟩

/-- C14: for every tick that does not reach the timeout (idle duration cast to
whole seconds at most TimeoutInterval, in particular every idle duration below
TimeoutInterval), whether or not it emits the warning and whatever the
suppression flag was before, the flag is false on return and the tick returns
the reschedule interval of 1000 milliseconds, not the stop signal. -/
theorem OnTimer_below_timeout_reschedules (h : Host) (s : State) (now : Int) :
    (idleSeconds s now ≤ s.g_timer_idle_timeout →
      (OnTimer h s now).state.g_ignore_activity = false ∧
      (OnTimer h s now).ret = 1000 ∧
      (OnTimer h s now).ret = kTimerIntervalMs ∧
      (OnTimer h s now).ret ≠ -1) ∧
    (now - s.g_last_activity < s.g_timer_idle_timeout * kClockPeriodsPerSecond →
      (OnTimer h s now).state.g_ignore_activity = false ∧
      (OnTimer h s now).ret = 1000 ∧
      (OnTimer h s now).ret = kTimerIntervalMs ∧
      (OnTimer h s now).ret ≠ -1) := by
  have key : idleSeconds s now ≤ s.g_timer_idle_timeout →
      (OnTimer h s now).state.g_ignore_activity = false ∧
      (OnTimer h s now).ret = 1000 ∧
      (OnTimer h s now).ret = kTimerIntervalMs ∧
      (OnTimer h s now).ret ≠ -1 := by
    intro hle
    rw [OnTimer_of_le h s now hle]
    have h1 : (1000 : Int) = kTimerIntervalMs := by decide
    have h2 : (1000 : Int) ≠ -1 := by decide
    exact ⟨rfl, rfl, h1, h2⟩
  exact ⟨key, fun hlt => key (idleSeconds_le_of_lt s now _ hlt)⟩

/-- C14 (witness): thresholds 3s and 5s, last activity at 0, flag set before
the tick; the tick at 4s (which emits the warning) returns 1000 with the flag
false. -/
theorem OnTimer_below_timeout_reschedules_witness :
    idleSeconds { state35 with g_ignore_activity := true } 4000000000
      ≤ state35.g_timer_idle_timeout ∧
    (OnTimer hostNoDatabase { state35 with g_ignore_activity := true }
      4000000000).state.g_ignore_activity = false ∧
    (OnTimer hostNoDatabase { state35 with g_ignore_activity := true }
      4000000000).ret = 1000 :=
  ⟨by decide,
   ((OnTimer_below_timeout_reschedules hostNoDatabase
      { state35 with g_ignore_activity := true } 4000000000).1 (by decide)).1,
   ((OnTimer_below_timeout_reschedules hostNoDatabase
      { state35 with g_ignore_activity := true } 4000000000).1 (by decide)).2.1⟩

/-! ## What each callback leaves unchanged -/

/-- C16: for every state, OnTimer, CreateSnapshotAndQuit and OnUiNotification
leave both thresholds unchanged; OnTimer and CreateSnapshotAndQuit leave the
last-activity time unchanged; OnUiNotification leaves the suppression flag
unchanged. -/
theorem callbacks_frame (h : Host) (s : State) (now : Int) :
    (OnTimer h s now).state.g_timer_idle_warning = s.g_timer_idle_warning ∧
    (OnTimer h s now).state.g_timer_idle_timeout = s.g_timer_idle_timeout ∧
    (CreateSnapshotAndQuit h s).state.g_timer_idle_warning = s.g_timer_idle_warning ∧
    (CreateSnapshotAndQuit h s).state.g_timer_idle_timeout = s.g_timer_idle_timeout ∧
    (OnUiNotification s now).state.g_timer_idle_warning = s.g_timer_idle_warning ∧
    (OnUiNotification s now).state.g_timer_idle_timeout = s.g_timer_idle_timeout ∧
    (OnTimer h s now).state.g_last_activity = s.g_last_activity ∧
    (CreateSnapshotAndQuit h s).state.g_last_activity = s.g_last_activity ∧
    (OnUiNotification s now).state.g_ignore_activity = s.g_ignore_activity :=
  ⟨(OnTimer_frame h s now).2.2.1, (OnTimer_frame h s now).2.2.2,
   (CreateSnapshotAndQuit_frame h s).2.2.1, (CreateSnapshotAndQuit_frame h s).2.2.2,
   (OnUiNotification_frame s now).2.2.1, (OnUiNotification_frame s now).2.2.2,
   (OnTimer_frame h s now).2.1, (CreateSnapshotAndQuit_frame h s).2.1,
   (OnUiNotification_frame s now).2.1⟩

/-! ## One outcome per tick -/

theorem WarnIdle_ne_nil (s : State) : WarnIdle s ≠ [] := by
  simp [WarnIdle]

theorem WarnIdle_not_in_terminal_trace (h : Host) (s s1 : State) (e : Event)
    (he : e ∈ WarnIdle s1) : e ∉ (CreateSnapshotAndQuit h s).trace := by
  unfold WarnIdle at he
  rw [List.mem_singleton] at he
  subst he
  have hsave : ∀ x : String,
      "IDA Idle: ATTENTION! Your session has been idle for more than " ++ x
        ≠ "IDA Idle: Saving snapshot...\n" := by
    intro x hx
    have hd := congrArg String.data hx
    simp [String.data_append] at hd
  have hclose : ∀ x : String,
      "IDA Idle: ATTENTION! Your session has been idle for more than " ++ x
        ≠ "IDA Idle: Closing IDA...\n" := by
    intro x hx
    have hd := congrArg String.data hx
    simp [String.data_append] at hd
  have hsaved : ∀ x y : String,
      "IDA Idle: ATTENTION! Your session has been idle for more than " ++ x
        ≠ "IDA Idle: Saved snapshot to: " ++ y := by
    intro x y hx
    have hd := congrArg String.data hx
    simp [String.data_append] at hd
  unfold CreateSnapshotAndQuit
  split
  · split
    · simp only [List.mem_cons, Event.msg.injEq, List.mem_singleton, reduceCtorEq,
        or_false, false_or, List.not_mem_nil, String.append_assoc]
      exact hsave _
    · simp only [List.mem_cons, Event.msg.injEq, List.mem_singleton, reduceCtorEq,
        or_false, false_or, List.not_mem_nil, String.append_assoc, not_or]
      exact ⟨hsave _, hsaved _ _, hclose _⟩
  · simp only [List.mem_cons, Event.msg.injEq, List.mem_singleton, reduceCtorEq,
      or_false, false_or, List.not_mem_nil, String.append_assoc]
    exact hclose _

/-- C15 (counterexample): thresholds 3s < 5s, last activity at 0.  The tick at
5.5s observes an idle duration already past TimeoutInterval, yet it returns
1000 and makes no SDK call: no terminal action.  The tick at 4s observes an
idle duration past the whole band [WarningInterval, WarningInterval + 1s) and
below the timeout, yet it emits the warning. -/
theorem tick_just_past_thresholds :
    state35.g_timer_idle_warning < state35.g_timer_idle_timeout ∧
    state35.g_timer_idle_timeout * kClockPeriodsPerSecond
      < 5500000000 - state35.g_last_activity ∧
    (OnTimer hostNoDatabase state35 5500000000).ret = 1000 ∧
    (OnTimer hostNoDatabase state35 5500000000).trace = [] ∧
    (OnTimer hostNoDatabase state35 5500000000).trace ≠
      (CreateSnapshotAndQuit hostNoDatabase
        { state35 with g_ignore_activity := true }).trace ∧
    (state35.g_timer_idle_warning + kTimerInterval) * kClockPeriodsPerSecond
      ≤ 4000000000 - state35.g_last_activity ∧
    4000000000 - state35.g_last_activity
      < state35.g_timer_idle_timeout * kClockPeriodsPerSecond ∧
    (OnTimer hostNoDatabase state35 4000000000).trace = WarnIdle state35 ∧
    (OnTimer hostNoDatabase state35 4000000000).trace ≠ [] := by
  have h55 : (OnTimer hostNoDatabase state35 5500000000).trace = [] := by decide
  have h4 : (OnTimer hostNoDatabase state35 4000000000).trace = WarnIdle state35 := by
    have h4w := OnTimer_trace_whole hostNoDatabase state35 4 (by decide)
    rw [if_pos (by decide)] at h4w
    exact h4w
  refine ⟨by decide, by decide, by decide, h55, ?_, by decide, by decide, h4, ?_⟩
  · rw [h55]
    exact fun hc => CreateSnapshotAndQuit_trace_ne_nil _ _ hc.symm
  · rw [h4]
    exact WarnIdle_ne_nil state35

/-- C15 (amended): for every state (in particular with Warning < Timeout) and
every idle duration, a single tick emits exactly one of: no-op, warning, or
terminal action, and the trace of a terminal tick holds no warning.  A tick
whose idle duration cast to whole seconds is greater than TimeoutInterval (for
a non-negative timeout: at least TimeoutInterval + 1s) runs the terminal
action without the warning; a tick whose idle duration cast to whole seconds
is greater than WarningInterval + 1s (for a non-negative warning: at least
WarningInterval + 2s) and that does not reach the timeout emits nothing. -/
theorem OnTimer_one_outcome (h : Host) (s : State) (now : Int) :
    (((OnTimer h s now).trace = [] ∧
        (OnTimer h s now).trace ≠ WarnIdle s ∧
        (OnTimer h s now).trace ≠
          (CreateSnapshotAndQuit h { s with g_ignore_activity := true }).trace) ∨
      ((OnTimer h s now).trace ≠ [] ∧
        (OnTimer h s now).trace = WarnIdle s ∧
        (OnTimer h s now).trace ≠
          (CreateSnapshotAndQuit h { s with g_ignore_activity := true }).trace) ∨
      ((OnTimer h s now).trace ≠ [] ∧
        (OnTimer h s now).trace ≠ WarnIdle s ∧
        (OnTimer h s now).trace =
          (CreateSnapshotAndQuit h { s with g_ignore_activity := true }).trace)) ∧
    (s.g_timer_idle_timeout < idleSeconds s now →
      (OnTimer h s now).ret = -1 ∧
      (OnTimer h s now).trace =
        (CreateSnapshotAndQuit h { s with g_ignore_activity := true }).trace ∧
      (∀ e ∈ WarnIdle s, e ∉ (OnTimer h s now).trace)) ∧
    (0 ≤ s.g_timer_idle_timeout →
      (s.g_timer_idle_timeout + 1) * kClockPeriodsPerSecond
        ≤ now - s.g_last_activity →
      (OnTimer h s now).ret = -1 ∧
      (OnTimer h s now).trace =
        (CreateSnapshotAndQuit h { s with g_ignore_activity := true }).trace ∧
      (∀ e ∈ WarnIdle s, e ∉ (OnTimer h s now).trace)) ∧
    (s.g_timer_idle_warning + 1 < idleSeconds s now →
      idleSeconds s now ≤ s.g_timer_idle_timeout →
      (OnTimer h s now).trace = [] ∧ (OnTimer h s now).ret = 1000) ∧
    (0 ≤ s.g_timer_idle_warning →
      (s.g_timer_idle_warning + 2) * kClockPeriodsPerSecond
        ≤ now - s.g_last_activity →
      now - s.g_last_activity < s.g_timer_idle_timeout * kClockPeriodsPerSecond →
      (OnTimer h s now).trace = [] ∧ (OnTimer h s now).ret = 1000) := by
  have hterm : s.g_timer_idle_timeout < idleSeconds s now →
      (OnTimer h s now).ret = -1 ∧
      (OnTimer h s now).trace =
        (CreateSnapshotAndQuit h { s with g_ignore_activity := true }).trace ∧
      (∀ e ∈ WarnIdle s, e ∉ (OnTimer h s now).trace) := by
    intro hgt
    rw [OnTimer_of_gt h s now hgt]
    exact ⟨rfl, rfl, fun e he => WarnIdle_not_in_terminal_trace h _ s e he⟩
  have hquiet : s.g_timer_idle_warning + 1 < idleSeconds s now →
      idleSeconds s now ≤ s.g_timer_idle_timeout →
      (OnTimer h s now).trace = [] ∧ (OnTimer h s now).ret = 1000 := by
    intro hpast hle
    rw [OnTimer_of_le h s now hle]
    dsimp only
    rw [if_neg (by omega)]
    exact ⟨rfl, rfl⟩
  refine ⟨?_, hterm, ?_, hquiet, ?_⟩
  · rcases lt_or_le s.g_timer_idle_timeout (idleSeconds s now) with hgt | hle
    · right; right
      rw [OnTimer_of_gt h s now hgt]
      exact ⟨CreateSnapshotAndQuit_trace_ne_nil _ _,
        CreateSnapshotAndQuit_trace_ne_WarnIdle _ _ _, rfl⟩
    · rw [OnTimer_of_le h s now hle]
      dsimp only
      by_cases hw : idleSeconds s now = s.g_timer_idle_warning + 1
      · right; left
        rw [if_pos hw]
        exact ⟨WarnIdle_ne_nil s, rfl,
          fun hc => CreateSnapshotAndQuit_trace_ne_WarnIdle _ _ _ hc.symm⟩
      · left
        rw [if_neg hw]
        exact ⟨rfl, fun hc => WarnIdle_ne_nil s hc.symm,
          fun hc => CreateSnapshotAndQuit_trace_ne_nil _ _ hc.symm⟩
  · intro hT hge
    exact hterm ((idleSeconds_gt_iff s now _ hT).mpr hge)
  · intro hW hge hlt
    have hpast : s.g_timer_idle_warning + 1 < idleSeconds s now := by
      rw [idleSeconds_gt_iff s now _ (by omega)]
      have : s.g_timer_idle_warning + 1 + 1 = s.g_timer_idle_warning + 2 := by ring
      rw [this]
      exact hge
    exact hquiet hpast (idleSeconds_le_of_lt s now _ hlt)

/-- C15 (witness): thresholds 3s and 5s, last activity at 0; after a jump to
100s the tick runs the terminal action with -1 and no warning in its trace. -/
theorem OnTimer_one_outcome_witness :
    state35.g_timer_idle_timeout < idleSeconds state35 100000000000 ∧
    (OnTimer hostSnapshotOk state35 100000000000).ret = -1 ∧
    (∀ e ∈ WarnIdle state35, e ∉ (OnTimer hostSnapshotOk state35 100000000000).trace) :=
  ⟨by decide,
   ((OnTimer_one_outcome hostSnapshotOk state35 100000000000).2.1 (by decide)).1,
   ((OnTimer_one_outcome hostSnapshotOk state35 100000000000).2.1 (by decide)).2.2⟩

/-! ## Negative settings -/

/-- C17 (counterexample): with the option WarningSeconds = -5 and no
TimeoutSeconds, start-up from the defaults activates a warning threshold of
-5 seconds, which is not a positive duration. -/
theorem PluginInit_activates_negative_warning :
    atoi (GetArgument (hostWarningOption "-5") "WarningSeconds") = -5 ∧
    (PluginInit (hostWarningOption "-5") initialState).state.g_timer_idle_warning = -5 ∧
    ¬ (0 < (PluginInit (hostWarningOption "-5") initialState).state.g_timer_idle_warning) ∧
    (PluginInit (hostWarningOption "-5") initialState).state.g_timer_idle_timeout
      = 43200 := by
  refine ⟨by decide, by decide, by decide, by decide⟩

/-- C17 (amended): start-up from the built-in defaults falls back to them only
when the resulting warning is not below the resulting timeout; the sign of a
setting is not checked.  For every pair of integer settings whose
WarningSeconds is not negative, both thresholds after PluginInit are strictly
positive; a negative WarningSeconds that is below the resulting timeout is
activated as given. -/
theorem PluginInit_positive_of_nonneg_warning (h : Host) (s : State) (ws ts : Int)
    (hdw : s.g_timer_idle_warning = 21600) (hdt : s.g_timer_idle_timeout = 43200)
    (hws : atoi (GetArgument h "WarningSeconds") = ws)
    (hts : atoi (GetArgument h "TimeoutSeconds") = ts) :
    (0 ≤ ws →
      0 < (PluginInit h s).state.g_timer_idle_warning ∧
      0 < (PluginInit h s).state.g_timer_idle_timeout) ∧
    (ws < 0 → ws < (if ts = 0 then 43200 else ts) →
      (PluginInit h s).state.g_timer_idle_warning = ws) := by
  have hmain := PluginInit_thresholds h s ws ts hdw hdt hws hts
  constructor
  · intro hnn
    by_cases hlt : (if ws = 0 then (21600 : Int) else ws) < (if ts = 0 then 43200 else ts)
    · have h1 := hmain.1 hlt
      rw [h1.1, h1.2]
      split at hlt <;> split at hlt <;> simp_all <;> omega
    · have h2 := hmain.2 hlt
      rw [h2.1, h2.2.1]
      decide
  · intro hneg hlt
    have hw : (if ws = 0 then (21600 : Int) else ws) = ws := if_neg (by omega)
    have h1 := hmain.1 (by rw [hw]; exact hlt)
    rw [h1.1, hw]

/-- C17 (witness): WarningSeconds = 100 gives positive thresholds 100s and
43200s. -/
theorem PluginInit_positive_of_nonneg_warning_witness :
    atoi (GetArgument (hostWarningOption "100") "WarningSeconds") = 100 ∧
    0 < (PluginInit (hostWarningOption "100") initialState).state.g_timer_idle_warning ∧
    0 < (PluginInit (hostWarningOption "100") initialState).state.g_timer_idle_timeout :=
  ⟨by decide,
   ((PluginInit_positive_of_nonneg_warning (hostWarningOption "100") initialState
      100 0 rfl rfl (by decide) (by decide)).1 (by decide)).1,
   ((PluginInit_positive_of_nonneg_warning (hostWarningOption "100") initialState
      100 0 rfl rfl (by decide) (by decide)).1 (by decide)).2⟩

/-! ## Failure to hook the UI notifications -/

/-- C18 (the code at the failing input): on a host where hooking the UI
notifications fails, PluginInit from the initial globals returns PLUGIN_SKIP
after having registered the timer at 1000 ms; its trace holds no
unregister_timer call and the handle stays stored, so the timer remains
registered.  On a host where hooking succeeds it returns PLUGIN_KEEP with the
timer registered at 1000 ms. -/
theorem PluginInit_hook_failure_leaves_timer :
    hostHookFails.hook_to_notification_point = false ∧
    (PluginInit hostHookFails initialState).ret = PLUGIN_SKIP ∧
    (PluginInit hostHookFails initialState).trace =
      [Event.register_addon "com.google.idaidle",
       Event.register_timer 1000,
       Event.hook_to_notification_point,
       Event.msg "IDA Idle: Failed to register plugin notifications, skipping plugin"] ∧
    Event.register_timer 1000 ∈ (PluginInit hostHookFails initialState).trace ∧
    (∀ handle : Nat,
      Event.unregister_timer handle ∉ (PluginInit hostHookFails initialState).trace) ∧
    (PluginInit hostHookFails initialState).state.g_timer_handle
      = hostHookFails.register_timer ∧
    (PluginInit hostNoDatabase initialState).ret = PLUGIN_KEEP ∧
    Event.register_timer 1000 ∈ (PluginInit hostNoDatabase initialState).trace := by
  have htr : (PluginInit hostHookFails initialState).trace =
      [Event.register_addon "com.google.idaidle",
       Event.register_timer 1000,
       Event.hook_to_notification_point,
       Event.msg "IDA Idle: Failed to register plugin notifications, skipping plugin"] := by
    decide
  refine ⟨rfl, by decide, htr, ?_, ?_, by decide, by decide, by decide⟩
  · rw [htr]; simp
  · intro handle
    rw [htr]; simp

/-! ## The comparisons of a tick -/

/-- C19: for every state and instant, with d the idle time cast to whole
seconds (the floor of (now - LastActivityTimestamp) / 1s whenever the clock has
not gone back, now >= LastActivityTimestamp), the tick runs the terminal
action and returns -1 if and only if d > TimeoutInterval, and otherwise emits
the warning if and only if WarningInterval < d <= WarningInterval + 1.  Hence
the terminal action fires exactly for idle times of at least
TimeoutInterval + 1s, and the warning, below that, exactly for idle times in
[WarningInterval + 1s, WarningInterval + 2s). -/
theorem OnTimer_decides_on_whole_seconds (h : Host) (s : State) (now : Int) :
    ((OnTimer h s now).ret = -1 ↔ s.g_timer_idle_timeout < idleSeconds s now) ∧
    (s.g_timer_idle_timeout < idleSeconds s now →
      (OnTimer h s now).trace =
        (CreateSnapshotAndQuit h { s with g_ignore_activity := true }).trace) ∧
    (idleSeconds s now ≤ s.g_timer_idle_timeout →
      (OnTimer h s now).ret = 1000 ∧
      ((OnTimer h s now).trace = WarnIdle s ↔
        (s.g_timer_idle_warning < idleSeconds s now ∧
          idleSeconds s now ≤ s.g_timer_idle_warning + 1)) ∧
      ((OnTimer h s now).trace ≠ WarnIdle s → (OnTimer h s now).trace = [])) ∧
    (s.g_last_activity ≤ now →
      idleSeconds s now = Int.fdiv (now - s.g_last_activity) kClockPeriodsPerSecond ∧
      (s.g_timer_idle_timeout < idleSeconds s now ↔
        (s.g_timer_idle_timeout + 1) * kClockPeriodsPerSecond
          ≤ now - s.g_last_activity) ∧
      ((s.g_timer_idle_warning < idleSeconds s now ∧
          idleSeconds s now ≤ s.g_timer_idle_warning + 1) ↔
        ((s.g_timer_idle_warning + 1) * kClockPeriodsPerSecond
            ≤ now - s.g_last_activity ∧
          now - s.g_last_activity
            < (s.g_timer_idle_warning + 2) * kClockPeriodsPerSecond))) := by
  refine ⟨?_, ?_, ?_, ?_⟩
  · constructor
    · intro hret
      by_contra hnot
      rw [OnTimer_of_le h s now (not_lt.mp hnot)] at hret
      have hne : (1000 : Int) ≠ -1 := by decide
      exact hne hret
    · intro hgt
      rw [OnTimer_of_gt h s now hgt]
  · intro hgt
    rw [OnTimer_of_gt h s now hgt]
  · intro hle
    rw [OnTimer_of_le h s now hle]
    dsimp only
    refine ⟨rfl, ?_, ?_⟩
    · constructor
      · intro htr
        by_contra hne
        rw [if_neg (by omega)] at htr
        exact WarnIdle_ne_nil s htr.symm
      · intro hband
        rw [if_pos (by omega)]
    · intro hne
      by_cases hw : idleSeconds s now = s.g_timer_idle_warning + 1
      · rw [if_pos hw] at hne
        exact absurd rfl hne
      · rw [if_neg hw]
  · intro hmono
    have hx : 0 ≤ now - s.g_last_activity := by omega
    have hd : idleSeconds s now = (now - s.g_last_activity) / 1000000000 := by
      unfold idleSeconds kClockPeriodsPerSecond
      exact tdiv_periods_of_nonneg _ hx
    refine ⟨?_, ?_, ?_⟩
    · unfold idleSeconds
      exact (Int.fdiv_eq_tdiv hx (by decide)).symm
    · rw [hd]; unfold kClockPeriodsPerSecond; omega
    · rw [hd]; unfold kClockPeriodsPerSecond; omega

/-- C19 (witness): thresholds 3s and 5s, last activity at 0: the tick at 5.9s
has d = 5, returns 1000; the tick at 6s has d = 6 and returns -1; the tick
at 4.9s emits the warning. -/
theorem OnTimer_decides_on_whole_seconds_witness :
    idleSeconds state35 5900000000 ≤ state35.g_timer_idle_timeout ∧
    (OnTimer hostNoDatabase state35 5900000000).ret = 1000 ∧
    (OnTimer hostNoDatabase state35 6000000000).ret = -1 ∧
    (OnTimer hostNoDatabase state35 4900000000).trace = WarnIdle state35 :=
  ⟨by decide,
   ((OnTimer_decides_on_whole_seconds hostNoDatabase state35 5900000000).2.2.1
      (by decide)).1,
   (OnTimer_decides_on_whole_seconds hostNoDatabase state35 6000000000).1.mpr
      (by decide),
   ((OnTimer_decides_on_whole_seconds hostNoDatabase state35 4900000000).2.2.1
      (by decide)).2.1.mpr ⟨by decide, by decide⟩⟩

/-! ## The text of a duration -/

theorem toString_natCast (n : Nat) : toString ((n : Nat) : Int) = toString n := rfl

theorem string_empty_append (x : String) : "" ++ x = x := by
  apply String.ext
  simp [String.data_append]

theorem HumanReadableTime_of_components (msec : Int) (H M S : Nat)
    (hH : Int.tdiv msec 3600000 = H)
    (hM : Int.tdiv (msec - (H : Int) * 3600000) 60000 = M)
    (hS : Int.tdiv (msec - (H : Int) * 3600000 - (M : Int) * 60000) 1000 = S) :
    HumanReadableTime msec =
      " ".intercalate
        ((if H ≠ 0 then [toString H ++ "h"] else []) ++
         (if M ≠ 0 then [toString M ++ "m"] else []) ++
         (if S ≠ 0 then [toString S ++ "s"] else [])) := by
  unfold HumanReadableTime
  simp only [hH, hM, hS]
  by_cases h1 : H = 0 <;> by_cases h2 : M = 0 <;> by_cases h3 : S = 0 <;>
    simp only [h1, h2, h3, ne_eq, not_true_eq_false, not_false_eq_true, if_true, if_false,
      Nat.cast_eq_zero, Nat.cast_zero, toString_natCast, String.intercalate,
      Bool.false_eq_true,
      String.intercalate.go, String.append_assoc, string_empty_append,
      List.nil_append, List.append_nil, List.cons_append, List.singleton_append]

theorem HumanReadableTime_components (ms : Nat) :
    Int.tdiv (ms : Int) 3600000 = ((durationComponents ms).1 : Int) ∧
    Int.tdiv ((ms : Int) - ((durationComponents ms).1 : Int) * 3600000) 60000
      = ((durationComponents ms).2.1 : Int) ∧
    Int.tdiv ((ms : Int) - ((durationComponents ms).1 : Int) * 3600000
      - ((durationComponents ms).2.1 : Int) * 60000) 1000
      = ((durationComponents ms).2.2 : Int) := by
  unfold durationComponents
  dsimp only
  refine ⟨?_, ?_, ?_⟩
  · rw [Int.tdiv_eq_ediv (by omega) (by decide)]; omega
  · rw [Int.tdiv_eq_ediv (by omega) (by decide)]; omega
  · rw [Int.tdiv_eq_ediv (by omega) (by decide)]; omega

theorem HumanReadableTime_eq_described (ms : Nat) :
    HumanReadableTime (ms : Int) = describedDurationText ms := by
  have hc := HumanReadableTime_components ms
  rw [HumanReadableTime_of_components (ms : Int) _ _ _ hc.1 hc.2.1 hc.2.2]
  rfl

theorem durationText_empty_iff (H M S : Nat) :
    " ".intercalate
        ((if H ≠ 0 then [toString H ++ "h"] else []) ++
         (if M ≠ 0 then [toString M ++ "m"] else []) ++
         (if S ≠ 0 then [toString S ++ "s"] else [])) = "" ↔
      H = 0 ∧ M = 0 ∧ S = 0 := by
  have lh : "h".length = 1 := rfl
  have lm : "m".length = 1 := rfl
  have ls : "s".length = 1 := rfl
  have lsp : " ".length = 1 := rfl
  have le : "".length = 0 := rfl
  by_cases h1 : H = 0 <;> by_cases h2 : M = 0 <;> by_cases h3 : S = 0 <;>
    simp only [h1, h2, h3, ne_eq, not_true_eq_false, not_false_eq_true, if_true, if_false,
      String.intercalate, String.intercalate.go,
      List.nil_append, List.append_nil, List.cons_append, List.singleton_append,
      and_self, and_true, and_false, false_and, iff_true, iff_false]
  all_goals
    intro hs
    have hl := congrArg String.length hs
    simp only [String.length_append, lh, lm, ls, lsp, le] at hl
    omega

theorem digitChar_ne_space : ∀ m : Nat, m < 10 → Nat.digitChar m ≠ ' ' := by decide

theorem toDigitsCore_no_space : ∀ (f n : Nat) (acc : List Char),
    (∀ c ∈ acc, c ≠ ' ') → ∀ c ∈ Nat.toDigitsCore 10 f n acc, c ≠ ' ' := by
  intro f
  induction f with
  | zero => intro n acc hacc; simpa [Nat.toDigitsCore] using hacc
  | succ f ih =>
    intro n acc hacc
    have hd : Nat.digitChar (n % 10) ≠ ' ' :=
      digitChar_ne_space _ (Nat.mod_lt _ (by decide))
    have hacc2 : ∀ c ∈ Nat.digitChar (n % 10) :: acc, c ≠ ' ' := by
      intro c hc
      rcases List.mem_cons.mp hc with hc | hc
      · rw [hc]; exact hd
      · exact hacc c hc
    unfold Nat.toDigitsCore
    dsimp only
    split
    · exact hacc2
    · exact ih _ _ hacc2

theorem toDigitsCore_ne_nil : ∀ (f n : Nat) (acc : List Char),
    acc ≠ [] → Nat.toDigitsCore 10 f n acc ≠ [] := by
  intro f
  induction f with
  | zero => intro n acc hacc; simpa [Nat.toDigitsCore] using hacc
  | succ f ih =>
    intro n acc _
    unfold Nat.toDigitsCore
    dsimp only
    split
    · simp
    · exact ih _ _ (by simp)

theorem toString_data_no_space (n : Nat) : ∀ c ∈ (toString n).data, c ≠ ' ' := by
  show ∀ c ∈ Nat.toDigitsCore 10 (n + 1) n [], c ≠ ' '
  exact toDigitsCore_no_space _ _ [] (by simp)

theorem toString_data_ne_nil (n : Nat) : (toString n).data ≠ [] := by
  show Nat.toDigitsCore 10 (n + 1) n [] ≠ []
  unfold Nat.toDigitsCore
  dsimp only
  split
  · simp
  · exact toDigitsCore_ne_nil _ _ _ (by simp)

theorem head_of_digits (n : Nat) (rest : String) (c : Char)
    (hc : (toString n ++ rest).data.head? = some c) : c ≠ ' ' := by
  rw [String.data_append] at hc
  have hne := toString_data_ne_nil n
  cases hd : (toString n).data with
  | nil => exact absurd hd hne
  | cons d ds =>
    rw [hd] at hc
    simp at hc
    rw [← hc]
    exact toString_data_no_space n d (by rw [hd]; simp)

theorem durationText_ends (H M S : Nat) (c : Char) :
    ((" ".intercalate
        ((if H ≠ 0 then [toString H ++ "h"] else []) ++
         (if M ≠ 0 then [toString M ++ "m"] else []) ++
         (if S ≠ 0 then [toString S ++ "s"] else []))).data.head? = some c → c ≠ ' ') ∧
    ((" ".intercalate
        ((if H ≠ 0 then [toString H ++ "h"] else []) ++
         (if M ≠ 0 then [toString M ++ "m"] else []) ++
         (if S ≠ 0 then [toString S ++ "s"] else []))).data.getLast? = some c →
      c ≠ ' ') := by
  by_cases h1 : H = 0 <;> by_cases h2 : M = 0 <;> by_cases h3 : S = 0 <;>
    simp only [h1, h2, h3, ne_eq, not_true_eq_false, not_false_eq_true, if_true, if_false,
      String.intercalate, String.intercalate.go, String.append_assoc,
      List.nil_append, List.append_nil, List.cons_append, List.singleton_append]
  case pos =>
    exact ⟨fun hc => by simp at hc, fun hc => by simp at hc⟩
  all_goals
    refine ⟨fun hc => head_of_digits _ _ c hc, fun hc => ?_⟩
    rw [← List.head?_reverse] at hc
    simp [String.data_append] at hc
    rw [← hc]
    decide

/-- C20: for every non-negative duration of ms milliseconds, HumanReadableTime
returns the described text: the non-zero components among h = ms / 3600000,
m = (ms mod 3600000) / 60000 and s = (ms mod 60000) / 1000, each as its decimal
string followed by its unit letter, in that order, joined by single spaces; the
text neither starts nor ends with a space; it is empty exactly when the
duration is below one second; the sub-second remainder does not matter; and
6h gives "6h", 3661000 ms gives "1h 1m 1s", 3601000 ms gives "1h 1s". -/
theorem HumanReadableTime_matches_description (ms : Nat) :
    HumanReadableTime (ms : Int) = describedDurationText ms ∧
    (HumanReadableTime (ms : Int) = "" ↔ ms < 1000) ∧
    HumanReadableTime ((ms - ms % 1000 : Nat) : Int) = HumanReadableTime (ms : Int) ∧
    (∀ c : Char, (HumanReadableTime (ms : Int)).data.head? = some c → c ≠ ' ') ∧
    (∀ c : Char, (HumanReadableTime (ms : Int)).data.getLast? = some c → c ≠ ' ') ∧
    HumanReadableTime (6 * 3600 * 1000) = "6h" ∧
    HumanReadableTime 3661000 = "1h 1m 1s" ∧
    HumanReadableTime 3601000 = "1h 1s" := by
  have hc := HumanReadableTime_components ms
  have hform := HumanReadableTime_of_components (ms : Int) _ _ _ hc.1 hc.2.1 hc.2.2
  refine ⟨HumanReadableTime_eq_described ms, ?_, ?_, ?_, ?_, by decide, by decide,
    by decide⟩
  · rw [hform, durationText_empty_iff]
    unfold durationComponents
    dsimp only
    omega
  · rw [HumanReadableTime_eq_described, HumanReadableTime_eq_described]
    have hsame : durationComponents (ms - ms % 1000) = durationComponents ms := by
      unfold durationComponents
      refine Prod.ext ?_ (Prod.ext ?_ ?_) <;> dsimp only <;> omega
    unfold describedDurationText
    rw [hsame]
  · intro c
    rw [hform]
    exact (durationText_ends _ _ _ c).1
  · intro c
    rw [hform]
    exact (durationText_ends _ _ _ c).2

/-- C20 (witness): 999 ms gives the empty text, and 3661000 ms gives the
described text. -/
theorem HumanReadableTime_matches_description_witness :
    HumanReadableTime ((999 : Nat) : Int) = "" ∧
    HumanReadableTime ((3661000 : Nat) : Int) = describedDurationText 3661000 :=
  ⟨(HumanReadableTime_matches_description 999).2.1.mpr (by decide),
   (HumanReadableTime_matches_description 3661000).1⟩

end security
